import Mathlib

/-!
Verification of the Tectle order-import core (src/tectle/orders/…) against its
specification.  The Python code is shallowly embedded: Python values become the
inductive `PyVal`, Python floats are modelled as exact rationals, fallible
Python expressions return `Except PyErr`, and the wall clock read by
`datetime.now()` is passed explicitly (`now : PDatetime`, or `clock : Nat →
PDatetime` for batch calls, one reading per parsed payload).
-/

namespace Tectle

/-- Python exception values relevant to the core (the message is the
exception's argument string). -/
inductive PyErr where
  | valueError (msg : String)
  | typeError (msg : String)
  | attributeError (msg : String)
  | keyError (msg : String)
deriving DecidableEq

/-- Whether an exception is a `KeyError` (the service's NotFound failure,
`service.py` line 66). -/
def PyErr.isKeyError : PyErr → Bool
  | .keyError _ => true
  | _ => false

/-- JSON-shaped Python values as they occur in raw order payloads.  Floats are
modelled as exact rationals (the importers only move them around and add and
multiply them, which is exact in both models for the decimal literals of
payloads). -/
inductive PyVal where
  | none
  | bool (b : Bool)
  | int (n : Int)
  | float (q : ℚ)
  | str (s : String)
  | list (xs : List PyVal)
  | dict (entries : List (String × PyVal))

/-- Association-list lookup, first binding wins (Python dict keys are unique,
so this matches `dict.__getitem__`). -/
def alistGet {β : Type} : List (String × β) → String → Option β
  | [], _ => Option.none
  | (k, v) :: rest, k' => if k = k' then some v else alistGet rest k'

/-- The value `d.get(k)` returns on a dict `d` with entries `es`: the stored
value, or Python `None` when the key is absent (`dict.get` default). -/
def dget (es : List (String × PyVal)) (k : String) : PyVal :=
  (alistGet es k).getD PyVal.none

/-- Python truthiness (`bool(v)`). -/
def PyVal.truthy : PyVal → Bool
  | .none => false
  | .bool b => b
  | .int n => n != 0
  | .float q => q != 0
  | .str s => s != ""
  | .list xs => !xs.isEmpty
  | .dict es => !es.isEmpty

/-- Python `a or b`: `a` if truthy, else `b`. -/
def pyOr (a b : PyVal) : PyVal := if a.truthy then a else b

/-- Method call `v.get(k)`: succeeds on dicts, raises `AttributeError` on any
other value (the importers call `.get` on nested payload fields that need not
be mappings). -/
def PyVal.get : PyVal → String → Except PyErr PyVal
  | .dict es, k => Except.ok (dget es k)
  | _, _ => Except.error (PyErr.attributeError "object has no attribute get")

/-- Total variant of `PyVal.get` used in theorem statements (`PyVal.none` for
non-dicts, where the real call would raise). -/
def PyVal.getD (v : PyVal) (k : String) : PyVal :=
  match v with
  | .dict es => dget es k
  | _ => PyVal.none

/-- Python iteration (`for x in v`): lists yield elements, strings yield
one-character strings, dicts yield their keys; other values raise
`TypeError`. -/
def PyVal.iter : PyVal → Except PyErr (List PyVal)
  | .list xs => Except.ok xs
  | .str s => Except.ok (s.data.map fun c => PyVal.str (String.mk [c]))
  | .dict es => Except.ok (es.map fun e => PyVal.str e.1)
  | _ => Except.error (PyErr.typeError "object is not iterable")

/-- Python `str.lower()` (ASCII model, which covers every status and platform
string the code handles). -/
def pyLower (s : String) : String := String.mk (s.data.map Char.toLower)

/-- Python `str.strip()` without arguments: drop leading and trailing
whitespace. -/
def pyStrip (s : String) : String :=
  String.mk (((s.data.dropWhile Char.isWhitespace).reverse.dropWhile Char.isWhitespace).reverse)

/-- Nonempty all-digit character list (`str.isdigit`, ASCII model). -/
def digitsOnly (cs : List Char) : Bool := !cs.isEmpty && cs.all Char.isDigit

/-- Python `str.isdigit()`. -/
def pyIsDigit (s : String) : Bool := digitsOnly s.data

/-- Numeric value of a digit string. -/
def natOfDigits (cs : List Char) : Nat :=
  cs.foldl (fun a c => a * 10 + (c.toNat - 48)) 0

/-- Mantissa of a Python float literal: digits with an optional decimal point,
at least one digit overall. -/
def parseMantissa (cs : List Char) : Option ℚ :=
  match cs.splitOn '.' with
  | [ds] => if digitsOnly ds then some ((natOfDigits ds : ℚ)) else Option.none
  | [ip, fp] =>
      if ip.all Char.isDigit && fp.all Char.isDigit && (!ip.isEmpty || !fp.isEmpty) then
        some ((natOfDigits (ip ++ fp) : ℚ) / ((10 : ℚ) ^ fp.length))
      else Option.none
  | _ => Option.none

/-- Exponent part of a Python float literal (optional sign, then digits). -/
def parseExponent (cs : List Char) : Option Int :=
  match cs with
  | '+' :: ds => if digitsOnly ds then some ((natOfDigits ds : Int)) else Option.none
  | '-' :: ds => if digitsOnly ds then some (-(natOfDigits ds : Int)) else Option.none
  | ds => if digitsOnly ds then some ((natOfDigits ds : Int)) else Option.none

/-- Unsigned Python float literal: mantissa with optional `e`/`E` exponent. -/
def parseFloatMag (cs : List Char) : Option ℚ :=
  match cs.findIdx? (fun c => c == 'e' || c == 'E') with
  | Option.none => parseMantissa cs
  | some i =>
      match parseMantissa (cs.take i), parseExponent (cs.drop (i + 1)) with
      | some m, some e => some (m * (10 : ℚ) ^ e)
      | _, _ => Option.none

/-- Python `float(s)` on a string: strip whitespace, optional sign, decimal
literal with optional exponent.  (`inf`, `nan` and underscore separators are
not modelled; no payload in scope uses them.) -/
def pyFloatOfString (s : String) : Option ℚ :=
  match (pyStrip s).data with
  | [] => Option.none
  | '+' :: rest => parseFloatMag rest
  | '-' :: rest => (parseFloatMag rest).map Neg.neg
  | cs => parseFloatMag cs

/-- Python `int(s)` on a string: strip whitespace, optional sign, digits only
(`int("3.5")` raises). -/
def pyIntOfString (s : String) : Option Int :=
  match (pyStrip s).data with
  | '+' :: ds => if digitsOnly ds then some ((natOfDigits ds : Int)) else Option.none
  | '-' :: ds => if digitsOnly ds then some (-(natOfDigits ds : Int)) else Option.none
  | ds => if digitsOnly ds then some ((natOfDigits ds : Int)) else Option.none

/-- Python `float(v)`: accepts bools, ints, floats and well-formed numeric
strings; `None` and containers raise `TypeError`, malformed strings raise
`ValueError`. -/
def pyFloat : PyVal → Except PyErr ℚ
  | .bool b => Except.ok (if b then 1 else 0)
  | .int n => Except.ok (n : ℚ)
  | .float q => Except.ok q
  | .str s =>
      match pyFloatOfString s with
      | some q => Except.ok q
      | Option.none =>
          Except.error (PyErr.valueError ("could not convert string to float: \x27" ++ s ++ "\x27"))
  | _ => Except.error (PyErr.typeError "float() argument must be a string or a real number")

/-- Python `int(v)`: truncates floats toward zero, parses digit strings;
`None` and containers raise `TypeError`, malformed strings raise
`ValueError`. -/
def pyInt : PyVal → Except PyErr Int
  | .bool b => Except.ok (if b then 1 else 0)
  | .int n => Except.ok n
  | .float q => Except.ok (Int.tdiv q.num (q.den : Int))
  | .str s =>
      match pyIntOfString s with
      | some n => Except.ok n
      | Option.none =>
          Except.error (PyErr.valueError ("invalid literal for int() with base 10: \x27" ++ s ++ "\x27"))
  | _ => Except.error (PyErr.typeError "int() argument must be a string or a number")

/-- Python `str(v)`.  The renderings of floats and containers are
placeholders: no code path a claim depends on stringifies them (ids and
statuses in scope are strings, ints or `None`). -/
def PyVal.pyStr : PyVal → String
  | .none => "None"
  | .bool b => if b then "True" else "False"
  | .int n => toString n
  | .float q => toString q.num ++ "/" ++ toString q.den
  | .str s => s
  | .list _ => "[...]"
  | .dict _ => "\x7b...\x7d"

/-! ## Datetimes

A `datetime.datetime` is modelled by its displayed (wall-clock) fields,
flattened to seconds since 1970-01-01T00:00:00 of those fields, together with
its `utcoffset()` in seconds (`Option.none` for naive datetimes). -/

/-- Python `datetime`: wall-clock seconds of the displayed fields plus an
optional UTC offset. -/
structure PDatetime where
  wall : ℚ
  tz : Option Int
deriving DecidableEq

/-- Comparison key of an aware datetime: the UTC instant it denotes, that is
`wall - utcoffset`, written out on the numerator and denominator so that it
evaluates by reduction.  Naive datetimes compare by their wall-clock fields,
which coincides with `key` because their offset reads as 0 here. -/
def PDatetime.key (d : PDatetime) : ℚ :=
  mkRat (d.wall.num - d.tz.getD 0 * (d.wall.den : Int)) d.wall.den

/-- The comparison key is the UTC instant `wall - utcoffset`. -/
theorem PDatetime.key_eq (d : PDatetime) :
    d.key = d.wall - ((d.tz.getD 0 : Int) : ℚ) := by
  have hden : ((d.wall.den : ℚ)) ≠ 0 := by
    exact_mod_cast (Nat.cast_ne_zero (R := ℚ)).mpr d.wall.den_nz
  rw [PDatetime.key, Rat.mkRat_eq_div]
  conv_rhs => rw [← Rat.num_div_den d.wall]
  push_cast
  field_simp
  ring

/-- Python `<=` on datetimes: aware pairs compare by UTC instant, naive pairs
by wall-clock fields, and a mixed pair raises `TypeError` (`Option.none`). -/
def dtLe (a b : PDatetime) : Option Bool :=
  match a.tz, b.tz with
  | some _, some _ => some (decide (a.key ≤ b.key))
  | Option.none, Option.none => some (decide (a.wall ≤ b.wall))
  | _, _ => Option.none

/-- Leap-year test of the proleptic Gregorian calendar. -/
def isLeap (y : Int) : Bool := (y % 4 == 0 && y % 100 != 0) || y % 400 == 0

/-- Days in a month (month given 1-12). -/
def daysInMonth (y : Int) (m : Nat) : Nat :=
  match m with
  | 1 => 31 | 2 => if isLeap y then 29 else 28 | 3 => 31 | 4 => 30
  | 5 => 31 | 6 => 30 | 7 => 31 | 8 => 31 | 9 => 30 | 10 => 31
  | 11 => 30 | 12 => 31 | _ => 0

/-- Days from 1970-01-01 to the given civil date (standard era-based
conversion). -/
def daysFromCivil (y : Int) (m : Nat) (d : Nat) : Int :=
  let y2 : Int := if m ≤ 2 then y - 1 else y
  let era : Int := Int.fdiv y2 400
  let yoe : Int := y2 - era * 400
  let mp : Int := ((m : Int) + 9) % 12
  let doy : Int := (153 * mp + 2) / 5 + (d : Int) - 1
  let doe : Int := yoe * 365 + yoe / 4 - yoe / 100 + doy
  era * 146097 + doe - 719468

/-- Read exactly two digits. -/
def read2 : List Char → Option (Nat × List Char)
  | a :: b :: rest =>
      if a.isDigit && b.isDigit then some ((a.toNat - 48) * 10 + (b.toNat - 48), rest)
      else Option.none
  | _ => Option.none

/-- Read exactly four digits. -/
def read4 (cs : List Char) : Option (Nat × List Char) :=
  match read2 cs with
  | some (hi, rest) =>
      match read2 rest with
      | some (lo, rest2) => some (hi * 100 + lo, rest2)
      | Option.none => Option.none
  | Option.none => Option.none

/-- Expect one specific character. -/
def readChar (c : Char) : List Char → Option (List Char)
  | c' :: rest => if c' = c then some rest else Option.none
  | _ => Option.none

/-- Time-of-day part `HH:MM[:SS]` of an ISO string (fractional seconds are not
modelled; no payload in scope carries them). -/
def readTime (cs : List Char) : Option (Nat × List Char) :=
  match read2 cs with
  | some (h, rest) =>
      match readChar ':' rest with
      | some rest2 =>
          match read2 rest2 with
          | some (mi, rest3) =>
              if h ≤ 23 && mi ≤ 59 then
                match readChar ':' rest3 with
                | some rest4 =>
                    match read2 rest4 with
                    | some (s, rest5) =>
                        if s ≤ 59 then some (h * 3600 + mi * 60 + s, rest5) else Option.none
                    | Option.none => Option.none
                | Option.none => some (h * 3600 + mi * 60, rest3)
              else Option.none
          | Option.none => Option.none
      | Option.none => Option.none
  | Option.none => Option.none

/-- UTC offset suffix `+HH:MM` or `-HH:MM`, or no suffix (naive). -/
def readOffset (cs : List Char) : Option (Option Int) :=
  match cs with
  | [] => some Option.none
  | sign :: rest =>
      if sign = '+' || sign = '-' then
        match readTime rest with
        | some (secs, []) =>
            some (some (if sign = '-' then -(secs : Int) else (secs : Int)))
        | _ => Option.none
      else Option.none

/-- Model of `datetime.fromisoformat` (Python < 3.11 grammar, as the Shopify
importer's explicit `"Z" → "+00:00"` rewrite assumes): `YYYY-MM-DD`, optional
`T` or space separator plus `HH:MM[:SS]`, optional `±HH:MM` offset.  Returns
`Option.none` where the real call raises `ValueError`. -/
def fromisoformat (s : String) : Option PDatetime :=
  match read4 s.data with
  | some (y, r1) =>
      match readChar '-' r1 with
      | some r2 =>
          match read2 r2 with
          | some (mo, r3) =>
              match readChar '-' r3 with
              | some r4 =>
                  match read2 r4 with
                  | some (d, r5) =>
                      if 1 ≤ mo && mo ≤ 12 && 1 ≤ d && d ≤ daysInMonth (y : Int) mo then
                        let base : ℚ := ((daysFromCivil (y : Int) mo d * 86400 : Int) : ℚ)
                        match r5 with
                        | [] => some { wall := base, tz := Option.none }
                        | sep :: r6 =>
                            if sep = 'T' || sep = ' ' then
                              match readTime r6 with
                              | some (secs, r7) =>
                                  match readOffset r7 with
                                  | some off => some { wall := base + (secs : ℚ), tz := off }
                                  | Option.none => Option.none
                              | Option.none => Option.none
                            else Option.none
                      else Option.none
                  | Option.none => Option.none
              | Option.none => Option.none
          | Option.none => Option.none
      | Option.none => Option.none
  | Option.none => Option.none

/-- Model of `value.replace("Z", "+00:00")` (every occurrence of the
one-character pattern is replaced). -/
def replaceZ (s : String) : String :=
  String.mk (s.data.foldr
    (fun c acc => if c = 'Z' then '+' :: '0' :: '0' :: ':' :: '0' :: '0' :: acc else c :: acc) [])

/-- The civil day (days since 1970-01-01, UTC) containing the given epoch
second. -/
def epochDay (q : ℚ) : Int := Int.fdiv q.num ((q.den : Int) * 86400)

/-- The proleptic-Gregorian year containing the given epoch second (standard
era-based inverse of `daysFromCivil`). -/
def epochYear (q : ℚ) : Int :=
  let z : Int := epochDay q + 719468
  let era : Int := Int.fdiv z 146097
  let doe : Int := z - era * 146097
  let yoe : Int := Int.fdiv (doe - Int.fdiv doe 1460 + Int.fdiv doe 36524 - Int.fdiv doe 146096) 365
  let y : Int := yoe + era * 400
  let doy : Int := doe - (365 * yoe + Int.fdiv yoe 4 - Int.fdiv yoe 100)
  let mp : Int := Int.fdiv (5 * doy + 2) 153
  let m : Int := if mp < 10 then mp + 3 else mp - 9
  if m ≤ 2 then y + 1 else y

/-- Model of `datetime.fromtimestamp(t, tz=timezone.utc)`: CPython's datetime
only supports years 1 to 9999 and raises `ValueError` naming the year
otherwise (sub-microsecond rounding at the exact range edges is not
modelled). -/
def fromtimestampUtc (q : ℚ) : Except PyErr PDatetime :=
  let y := epochYear q
  if y < 1 || 9999 < y then
    Except.error (PyErr.valueError ("year " ++ toString y ++ " is out of range"))
  else Except.ok { wall := q, tz := some 0 }

/-! ## Data model (`models.py`) -/

/-- A single line item within an order (`models.OrderItem`). -/
structure OrderItem where
  sku : String
  name : String
  quantity : Int
  price : ℚ
  currency : String
  metadata : List (String × String)

/-- A normalized order (`models.Order`). -/
structure Order where
  id : String
  platform : String
  created_at : PDatetime
  customer_name : String
  customer_email : String
  status : String
  currency : String
  total_price : ℚ
  items : List OrderItem
  fulfillment_status : Option String
  raw_payload : PyVal

/-- `Order.is_open`: status, lowercased, is one of open, unfulfilled,
processing. -/
def Order.is_open (o : Order) : Bool :=
  pyLower o.status == "open" || pyLower o.status == "unfulfilled" ||
    pyLower o.status == "processing"

/-- `Order.total_quantity`: sum of item quantities. -/
def Order.total_quantity (o : Order) : Int :=
  (o.items.map OrderItem.quantity).sum

/-- Line subtotal sum `sum(item.price * item.quantity for item in items)`. -/
def sumSubtotals (items : List OrderItem) : ℚ :=
  (items.map fun it => it.price * (it.quantity : ℚ)).sum

/-- List comprehension over an `Except`-producing function: left to right,
first exception wins (models `[f(x) for x in xs]`). -/
def mapME {α β : Type} (f : α → Except PyErr β) : List α → Except PyErr (List β)
  | [] => Except.ok []
  | a :: as => do
      let b ← f a
      let bs ← mapME f as
      Except.ok (b :: bs)

/-! ## Etsy importer (`importers/etsy.py`) -/

namespace EtsyOrderImporter

/-- `EtsyOrderImporter._parse_datetime`.  `now` is the value
`datetime.now(tz=timezone.utc)` would return at this call (bools hit the
`isinstance(value, (int, float))` branch because Python bools are ints).  The
`fromtimestamp` calls on the numeric and digit-string branches are UNGUARDED
in the source — the `try/except ValueError` wraps only `fromisoformat` — so an
epoch outside datetime's supported years 1-9999 raises out of the importer.
The digit-string branch models `str.isdigit` over ASCII: a non-ASCII Unicode
digit string (where `isdigit` holds but `float()` raises) is outside this
model, and the C1 well-formedness checker restricts timestamp strings to
ASCII accordingly. -/
def parse_datetime (now : PDatetime) (value : PyVal) : Except PyErr PDatetime :=
  match value with
  | .bool b => fromtimestampUtc (if b then 1 else 0)
  | .int n => fromtimestampUtc ((n : Int) : ℚ)
  | .float q => fromtimestampUtc q
  | .str s =>
      if pyIsDigit s then fromtimestampUtc ((natOfDigits s.data : ℚ))
      else
        match fromisoformat s with
        | some d => Except.ok d
        | Option.none => Except.ok now
  | _ => Except.ok now

/-- `EtsyOrderImporter._parse_transaction`. -/
def parse_transaction (payload : PyVal) (default_currency : String) : Except PyErr OrderItem := do
  let cc ← payload.get "currency_code"
  let currency := (pyOr cc (PyVal.str default_currency)).pyStr
  let pid ← payload.get "product_id"
  let lid ← payload.get "listing_id"
  let sku := (pyOr pid (pyOr lid (PyVal.str ""))).pyStr
  let ti ← payload.get "title"
  let nm ← payload.get "name"
  let name := (pyOr ti (pyOr nm (PyVal.str ""))).pyStr
  let qv ← payload.get "quantity"
  let quantity ← pyInt (pyOr qv (PyVal.int 0))
  let pv ← payload.get "price"
  let tt ← payload.get "transaction_total"
  let price ← pyFloat (pyOr pv (pyOr tt (PyVal.float 0)))
  let tid ← payload.get "transaction_id"
  Except.ok
    { sku := sku, name := name, quantity := quantity, price := price, currency := currency,
      metadata := [("transaction_id", (pyOr tid (PyVal.str "")).pyStr)] }

/-- `EtsyOrderImporter.parse_order`. -/
def parse_order (now : PDatetime) (payload : PyVal) : Except PyErr Order := do
  let rid ← payload.get "receipt_id"
  let oid ← payload.get "order_id"
  let receipt_id := (pyOr rid oid).pyStr
  let bv ← payload.get "buyer"
  let buyer := pyOr bv (PyVal.dict [])
  let bn ← buyer.get "name"
  let bu ← buyer.get "username"
  let customer_name := (pyOr bn (pyOr bu (PyVal.str ""))).pyStr
  let be ← buyer.get "email"
  let customer_email := (pyOr be (PyVal.str "")).pyStr
  let ct ← payload.get "creation_tsz"
  let created_at ← parse_datetime now ct
  let st ← payload.get "status"
  let status := (pyOr st (PyVal.str "open")).pyStr
  let cc ← payload.get "currency_code"
  let currency := (pyOr cc (PyVal.str "USD")).pyStr
  let tv ← payload.get "transactions"
  let txs ← (pyOr tv (PyVal.list [])).iter
  let items ← mapME (fun tx => parse_transaction tx currency) txs
  let gt ← payload.get "grandtotal"
  let total_price ← pyFloat (pyOr gt (PyVal.float (sumSubtotals items)))
  let fs ← payload.get "fulfillment_status"
  let wp ← payload.get "was_paid"
  let fulfillment_status := (pyOr fs (pyOr wp (PyVal.str "pending"))).pyStr
  Except.ok
    { id := receipt_id, platform := "etsy", created_at := created_at,
      customer_name := customer_name, customer_email := customer_email,
      status := status, currency := currency, total_price := total_price, items := items,
      fulfillment_status := if fulfillment_status ≠ "" then some fulfillment_status else Option.none,
      raw_payload := payload }

end EtsyOrderImporter

/-! ## Shopify importer (`importers/shopify.py`) -/

namespace ShopifyOrderImporter

/-- `ShopifyOrderImporter._parse_datetime`. -/
def parse_datetime (now : PDatetime) (value : PyVal) : PDatetime :=
  match value with
  | .str s =>
      match fromisoformat (replaceZ s) with
      | some d => d
      | Option.none => now
  | _ => now

/-- `ShopifyOrderImporter._build_customer_name` (the Python early returns are
written as explicit if/else nesting). -/
def build_customer_name (customer : PyVal) : Except PyErr String :=
  if !customer.truthy then Except.ok ""
  else do
    let fn ← customer.get "first_name"
    let first_name := pyStrip (pyOr fn (PyVal.str "")).pyStr
    let ln ← customer.get "last_name"
    let last_name := pyStrip (pyOr ln (PyVal.str "")).pyStr
    if first_name ≠ "" || last_name ≠ "" then
      Except.ok (pyStrip (first_name ++ " " ++ last_name))
    else do
      let nm ← customer.get "name"
      Except.ok (pyOr nm (PyVal.str "")).pyStr

/-- `ShopifyOrderImporter._parse_line_item`. -/
def parse_line_item (payload : PyVal) (default_currency : String) : Except PyErr OrderItem := do
  let sk ← payload.get "sku"
  let vid ← payload.get "variant_id"
  let sku := (pyOr sk (pyOr vid (PyVal.str ""))).pyStr
  let ti ← payload.get "title"
  let name := (pyOr ti (PyVal.str "")).pyStr
  let qv ← payload.get "quantity"
  let quantity ← pyInt (pyOr qv (PyVal.int 0))
  let pv ← payload.get "price"
  let price ← pyFloat (pyOr pv (PyVal.float 0))
  let cu ← payload.get "currency"
  let currency := (pyOr cu (PyVal.str default_currency)).pyStr
  let vt ← payload.get "variant_title"
  let fs ← payload.get "fulfillment_status"
  Except.ok
    { sku := sku, name := name, quantity := quantity, price := price, currency := currency,
      metadata := [("variant_title", (pyOr vt (PyVal.str "")).pyStr),
                   ("fulfillment_status", (pyOr fs (PyVal.str "")).pyStr)] }

/-- `ShopifyOrderImporter.parse_order`. -/
def parse_order (now : PDatetime) (payload : PyVal) : Except PyErr Order := do
  let idv ← payload.get "id"
  let order_id := idv.pyStr
  let cv ← payload.get "customer"
  let customer := pyOr cv (PyVal.dict [])
  let customer_name ← build_customer_name customer
  let ce ← customer.get "email"
  let pe ← payload.get "email"
  let customer_email := (pyOr ce (pyOr pe (PyVal.str ""))).pyStr
  let ca ← payload.get "created_at"
  let created_at := parse_datetime now ca
  let fin ← payload.get "financial_status"
  let ful ← payload.get "fulfillment_status"
  let status := (pyOr fin (pyOr ful (PyVal.str "open"))).pyStr
  let cu ← payload.get "currency"
  let currency := (pyOr cu (PyVal.str "USD")).pyStr
  let fulfillment_status ← payload.get "fulfillment_status"
  let lv ← payload.get "line_items"
  let lis ← (pyOr lv (PyVal.list [])).iter
  let items ← mapME (fun it => parse_line_item it currency) lis
  let tp ← payload.get "total_price"
  let total_price ← pyFloat (pyOr tp (PyVal.float (sumSubtotals items)))
  Except.ok
    { id := order_id, platform := "shopify", created_at := created_at,
      customer_name := customer_name, customer_email := customer_email,
      status := status, currency := currency, total_price := total_price, items := items,
      fulfillment_status :=
        if fulfillment_status.truthy then some fulfillment_status.pyStr else Option.none,
      raw_payload := payload }

end ShopifyOrderImporter

/-! ## Importer dispatch (`importers/base.py`, `service.py`) -/

/-- The registered importer kinds of the repository (user-registered importers
live outside src/ and are not modelled; the registry may hold these two under
any keys). -/
inductive Importer where
  | etsy
  | shopify
deriving DecidableEq

/-- The `platform` class attribute. -/
def Importer.platform : Importer → String
  | .etsy => "etsy"
  | .shopify => "shopify"

/-- Dynamic dispatch of `parse_order`. -/
def Importer.parse_order : Importer → PDatetime → PyVal → Except PyErr Order
  | .etsy => EtsyOrderImporter.parse_order
  | .shopify => ShopifyOrderImporter.parse_order

/-- `BaseOrderImporter.import_orders`, starting the clock at reading `i`
(each `parse_order` call may read the wall clock once). -/
def Importer.import_orders_from (imp : Importer) (clock : Nat → PDatetime) (i : Nat) :
    List PyVal → Except PyErr (List Order)
  | [] => Except.ok []
  | p :: ps => do
      let o ← imp.parse_order (clock i) p
      let os ← imp.import_orders_from clock (i + 1) ps
      Except.ok (o :: os)

/-- `BaseOrderImporter.import_orders`: parse each payload in input order. -/
def Importer.import_orders (imp : Importer) (clock : Nat → PDatetime)
    (raw_orders : List PyVal) : Except PyErr (List Order) :=
  imp.import_orders_from clock 0 raw_orders

/-- `OrderService`: the mutable registry, modelled as the association list of
(lowercased platform key, importer); `__post_init__` seeds it with Etsy and
Shopify when empty. -/
structure OrderService where
  importers : List (String × Importer)

/-- A freshly constructed `OrderService()` after `__post_init__`. -/
def OrderService.default : OrderService :=
  { importers := [("etsy", Importer.etsy), ("shopify", Importer.shopify)] }

/-- Overwrite-or-append update of the registry (Python dict assignment keeps
the insertion position of an existing key). -/
def alistPut (es : List (String × Importer)) (k : String) (imp : Importer) :
    List (String × Importer) :=
  match es with
  | [] => [(k, imp)]
  | (k', v) :: rest => if k' = k then (k', imp) :: rest else (k', v) :: alistPut rest k imp

/-- `OrderService.register_importer` as explicit state passing. -/
def OrderService.register_importer (svc : OrderService) (imp : Importer) : OrderService :=
  { importers := alistPut svc.importers (pyLower imp.platform) imp }

/-- `OrderService._get_importer`: lowercased lookup, `KeyError` naming the
requested platform when absent. -/
def OrderService.get_importer (svc : OrderService) (platform : String) :
    Except PyErr Importer :=
  match alistGet svc.importers (pyLower platform) with
  | some imp => Except.ok imp
  | Option.none =>
      Except.error (PyErr.keyError
        ("No importer registered for platform \x27" ++ platform ++ "\x27"))

/-- `OrderService.import_orders`. -/
def OrderService.import_orders (svc : OrderService) (clock : Nat → PDatetime)
    (platform : String) (raw_orders : List PyVal) : Except PyErr (List Order) := do
  let imp ← svc.get_importer platform
  imp.import_orders clock raw_orders

/-! ## Organizer (`organizer.py`) -/

/-- Aggregated statistics (`organizer.OrderSummary`).  `total_items` is an
integer because item quantities are `int(...)` of payload fields and may be
negative. -/
structure OrderSummary where
  total_orders : Nat
  open_orders : Nat
  total_revenue : ℚ
  total_items : Int
deriving DecidableEq

/-- Round-half-to-even to an integer (Python `round` on exact values;
`round(x, 2)` on binary floats follows the same rule applied to the exact
binary value, which this rational model idealises). -/
def roundHalfEven (q : ℚ) : Int :=
  let f : Int := ⌊q⌋
  let r : ℚ := q - (f : ℚ)
  if r < 1 / 2 then f
  else if 1 / 2 < r then f + 1
  else if f % 2 = 0 then f else f + 1

/-- Python `round(x, 2)`. -/
def pyRound2 (q : ℚ) : ℚ := ((roundHalfEven (q * 100) : Int) : ℚ) / 100

/-- The `defaultdict(list)` grouping step: append to an existing group or open
a new one at the end (Python dicts preserve first-insertion key order). -/
def insertGroup (groups : List (String × List Order)) (k : String) (o : Order) :
    List (String × List Order) :=
  match groups with
  | [] => [(k, [o])]
  | (k', os) :: rest =>
      if k' = k then (k', os ++ [o]) :: rest else (k', os) :: insertGroup rest k o

/-- `OrderOrganizer.group_by_status`. -/
def group_by_status (orders : List Order) : List (String × List Order) :=
  orders.foldl (fun g o => insertGroup g (pyLower o.status) o) []

/-- The grouping key `(order.fulfillment_status or "unfulfilled").lower()`. -/
def fulfillmentKey (o : Order) : String :=
  pyLower (match o.fulfillment_status with
    | some s => if s ≠ "" then s else "unfulfilled"
    | Option.none => "unfulfilled")

/-- `OrderOrganizer.group_by_fulfillment`. -/
def group_by_fulfillment (orders : List Order) : List (String × List Order) :=
  orders.foldl (fun g o => insertGroup g (fulfillmentKey o) o) []

/-- Sort key: `created_at`, compared as Python compares the surviving
(all-aware or all-naive) lists. -/
def createdLe (a b : Order) : Prop := a.created_at.key ≤ b.created_at.key

instance : DecidableRel createdLe := fun a b =>
  inferInstanceAs (Decidable (a.created_at.key ≤ b.created_at.key))

instance : IsTotal Order createdLe := ⟨fun a b => le_total a.created_at.key b.created_at.key⟩

instance : IsTrans Order createdLe := ⟨fun _ _ _ h h2 => le_trans h h2⟩

/-- Whether every pair of timestamps is comparable: Python can compare two
datetimes iff both are aware or both are naive. -/
def comparableTimes (orders : List Order) : Bool :=
  orders.all (fun o => o.created_at.tz.isSome) || orders.all (fun o => o.created_at.tz.isNone)

/-- `OrderOrganizer.sort_orders` at the default `reverse=False` (the only call
mode the service uses).  Python's `sorted` (Timsort) compares every adjacent
pair while detecting runs, so a list mixing naive and aware timestamps raises
`TypeError`; otherwise it returns the unique stable ascending reordering,
modelled by insertion sort. -/
def sort_orders (orders : List Order) : Except PyErr (List Order) :=
  if comparableTimes orders then Except.ok (orders.insertionSort createdLe)
  else Except.error (PyErr.typeError "cannot compare offset-naive and offset-aware datetimes")

/-- `OrderOrganizer.summary`: the single accumulation pass (count, open count,
revenue sum, item sum), with the revenue rounded at the end. -/
def summary (orders : List Order) : OrderSummary :=
  let acc := orders.foldl
    (fun (acc : Nat × Nat × ℚ × Int) o =>
      (acc.1 + 1,
       acc.2.1 + (if o.is_open then 1 else 0),
       acc.2.2.1 + o.total_price,
       acc.2.2.2 + o.total_quantity))
    (0, 0, 0, 0)
  { total_orders := acc.1, open_orders := acc.2.1,
    total_revenue := pyRound2 acc.2.2.1, total_items := acc.2.2.2 }

/-- The report structure of `OrderOrganizer.to_report`. -/
structure Report where
  summary : OrderSummary
  by_status : List (String × Nat)
  by_fulfillment : List (String × Nat)

/-- `OrderOrganizer.to_report`. -/
def to_report (orders : List Order) : Report :=
  { summary := summary orders,
    by_status := (group_by_status orders).map fun p => (p.1, p.2.length),
    by_fulfillment := (group_by_fulfillment orders).map fun p => (p.1, p.2.length) }

/-- The collection loop of `OrderService.import_all` before sorting: dispatch
each platform group in payload iteration order and concatenate, threading the
clock-reading index. -/
def collectOrders (svc : OrderService) (clock : Nat → PDatetime) :
    List (String × List PyVal) → Nat → Except PyErr (List Order)
  | [], _ => Except.ok []
  | (platform, raws) :: rest, i => do
      let imp ← svc.get_importer platform
      let orders ← imp.import_orders_from clock i raws
      let others ← collectOrders svc clock rest (i + raws.length)
      Except.ok (orders ++ others)

/-- `OrderService.import_all`: collect every platform's orders, then
`organizer.sort_orders`. -/
def OrderService.import_all (svc : OrderService) (clock : Nat → PDatetime)
    (payload : List (String × List PyVal)) : Except PyErr (List Order) := do
  let all ← collectOrders svc clock payload 0
  sort_orders all

/-! ## Shared lemmas about the organizer -/

/-- The accumulation loop of `summary`, run from an arbitrary starting
accumulator. -/
theorem summary_foldl (orders : List Order) (a b : Nat) (c : ℚ) (d : Int) :
    orders.foldl
      (fun (acc : Nat × Nat × ℚ × Int) o =>
        (acc.1 + 1,
         acc.2.1 + (if o.is_open then 1 else 0),
         acc.2.2.1 + o.total_price,
         acc.2.2.2 + o.total_quantity))
      (a, b, c, d) =
      (a + orders.length,
       b + (orders.filter (fun o => o.is_open)).length,
       c + (orders.map Order.total_price).sum,
       d + (orders.map Order.total_quantity).sum) := by
  induction orders generalizing a b c d with
  | nil => simp
  | cons o os ih =>
      simp only [List.foldl_cons, ih, List.length_cons, List.filter_cons, List.map_cons,
        List.sum_cons]
      refine Prod.ext ?_ (Prod.ext ?_ (Prod.ext ?_ ?_))
      · simp; omega
      · by_cases h : o.is_open <;> simp [h]
        all_goals omega
      · simp [add_assoc]
      · simp [add_assoc]

/-- Each grouping step grows the total of the group sizes by exactly one. -/
theorem insertGroup_sizes (g : List (String × List Order)) (k : String) (o : Order) :
    ((insertGroup g k o).map (fun p => p.2.length)).sum =
      (g.map (fun p => p.2.length)).sum + 1 := by
  induction g with
  | nil => simp [insertGroup]
  | cons p rest ih =>
      obtain ⟨k', os⟩ := p
      by_cases h : k' = k
      · simp [insertGroup, h]
        omega
      · simp [insertGroup, h, ih]
        omega

/-- The grouping fold partitions: group sizes always total the number of
orders, for any grouping key function. -/
theorem foldl_group_sizes (keyf : Order → String) (orders : List Order)
    (g : List (String × List Order)) :
    (((orders.foldl (fun acc o => insertGroup acc (keyf o) o) g)).map
        (fun p => p.2.length)).sum =
      (g.map (fun p => p.2.length)).sum + orders.length := by
  induction orders generalizing g with
  | nil => simp
  | cons o os ih => simp [List.foldl_cons, ih, insertGroup_sizes]; omega

/-! ## Claim C5 -/

/-- C5: for every collection of orders, `summary(orders)` returns an
`OrderSummary` whose `total_orders` is the number of orders, whose
`open_orders` counts the orders with `is_open` (status lowercased being one of
open, unfulfilled, processing), whose `total_items` is the sum over the orders
of their item-quantity sums, and whose `total_revenue` is the sum of the
orders' `total_price` rounded to 2 decimal places (round-half-to-even, as
Python's `round`). -/
theorem summary_counts_totals_and_rounded_revenue (orders : List Order) :
    (summary orders).total_orders = orders.length ∧
    (summary orders).open_orders = (orders.filter (fun o => o.is_open)).length ∧
    (summary orders).total_items = (orders.map Order.total_quantity).sum ∧
    (summary orders).total_revenue = pyRound2 ((orders.map Order.total_price).sum) := by
  unfold summary
  rw [summary_foldl]
  refine ⟨by simp, by simp, by simp, by simp⟩

/-! ## Claim C10 -/

/-- C10: for every collection of orders, the report of `to_report` is
internally consistent: the `by_status` counts sum to `summary.total_orders`,
and so do the `by_fulfillment` counts — every order lands in exactly one
status group and exactly one fulfillment group, with a `None` or empty
`fulfillment_status` grouped under the key "unfulfilled". -/
theorem to_report_counts_partition_orders (orders : List Order) :
    (((to_report orders).by_status.map (fun p => p.2)).sum =
        (to_report orders).summary.total_orders) ∧
    (((to_report orders).by_fulfillment.map (fun p => p.2)).sum =
        (to_report orders).summary.total_orders) ∧
    (∀ o : Order, o.fulfillment_status = Option.none ∨ o.fulfillment_status = some "" →
        fulfillmentKey o = "unfulfilled") := by
  have hsum : (summary orders).total_orders = orders.length := by
    unfold summary
    rw [summary_foldl]
    simp
  have hmap : ∀ (g : List (String × List Order)),
      (g.map (fun p => (p.1, p.2.length))).map (fun p => p.2) =
        g.map (fun p => p.2.length) := by
    intro g
    simp
  refine ⟨?_, ?_, ?_⟩
  · show (((group_by_status orders).map (fun p => (p.1, p.2.length))).map
        (fun p => p.2)).sum = (summary orders).total_orders
    rw [hmap, hsum, group_by_status, foldl_group_sizes]
    simp
  · show (((group_by_fulfillment orders).map (fun p => (p.1, p.2.length))).map
        (fun p => p.2)).sum = (summary orders).total_orders
    rw [hmap, hsum, group_by_fulfillment, foldl_group_sizes]
    simp
  · intro o h
    rcases h with h | h <;> simp [fulfillmentKey, h, pyLower]

/-! ## Claim C3 -/

/-- On a pair of comparable timestamps, Python's `<=` answers `true` exactly
when the comparison keys are ordered. -/
theorem dtLe_some_true_iff {a b : PDatetime}
    (h : (a.tz.isSome ∧ b.tz.isSome) ∨ (a.tz.isNone ∧ b.tz.isNone)) :
    dtLe a b = some true ↔ a.key ≤ b.key := by
  rcases h with ⟨ha, hb⟩ | ⟨ha, hb⟩
  · obtain ⟨x, hx⟩ := Option.isSome_iff_exists.mp ha
    obtain ⟨y, hy⟩ := Option.isSome_iff_exists.mp hb
    simp [dtLe, hx, hy]
  · rw [Option.isNone_iff_eq_none] at ha hb
    simp [dtLe, ha, hb, PDatetime.key_eq, ha, hb]

/-- C3: whenever `import_all` returns a list (every platform of the payload
being registered, and the parses succeeding), that list is sorted ascending by
`created_at`, is a permutation of the concatenation of the per-platform
imports taken in payload iteration order (`flat`), and the sort is stable: any
two orders of `flat` whose timestamps are ordered (in particular, equal) keep
their relative `flat` order — platform-iteration order then within-platform
payload order. -/
theorem import_all_sorted_and_stable
    (svc : OrderService) (clock : Nat → PDatetime)
    (payload : List (String × List PyVal)) (flat l : List Order)
    (hflat : collectOrders svc clock payload 0 = Except.ok flat)
    (hl : svc.import_all clock payload = Except.ok l) :
    l.Pairwise (fun a b => dtLe a.created_at b.created_at = some true) ∧
    l.Perm flat ∧
    (∀ a b : Order, [a, b].Sublist flat → createdLe a b → [a, b].Sublist l) := by
  unfold OrderService.import_all at hl
  rw [hflat] at hl
  replace hl : sort_orders flat = Except.ok l := hl
  unfold sort_orders at hl
  by_cases hcmp : comparableTimes flat
  · rw [if_pos hcmp] at hl
    have hl2 : l = flat.insertionSort createdLe := by
      cases hl
      rfl
    subst hl2
    refine ⟨?_, List.perm_insertionSort createdLe flat, ?_⟩
    · have hsorted : (flat.insertionSort createdLe).Pairwise createdLe :=
        List.sorted_insertionSort createdLe flat
      refine hsorted.imp_of_mem ?_
      intro a b hma hmb hle
      have hma2 : a ∈ flat := (List.mem_insertionSort createdLe).mp hma
      have hmb2 : b ∈ flat := (List.mem_insertionSort createdLe).mp hmb
      have hcases : (a.created_at.tz.isSome ∧ b.created_at.tz.isSome) ∨
          (a.created_at.tz.isNone ∧ b.created_at.tz.isNone) := by
        unfold comparableTimes at hcmp
        rcases Bool.or_eq_true_iff.mp hcmp with hall | hall
        · exact Or.inl ⟨List.all_eq_true.mp hall a hma2, List.all_eq_true.mp hall b hmb2⟩
        · exact Or.inr ⟨List.all_eq_true.mp hall a hma2, List.all_eq_true.mp hall b hmb2⟩
      exact (dtLe_some_true_iff hcases).mpr hle
    · intro a b hsub hab
      exact List.pair_sublist_insertionSort hab hsub
  · rw [if_neg hcmp] at hl
    cases hl

/-- Clock for the C3 witness run: the first wall-clock reading is later than
the second, so the collected list arrives unsorted. -/
def w3clock : Nat → PDatetime :=
  fun i => { wall := ((2 - (i : Int) : Int) : ℚ), tz := some 0 }

/-- C3 witness payload: one empty Etsy payload, one empty Shopify payload. -/
def w3payload : List (String × List PyVal) :=
  [("etsy", [PyVal.dict []]), ("shopify", [PyVal.dict []])]

/-- The Etsy order of the C3 witness run (parsed first, at clock reading 0). -/
def w3eord : Order :=
  { id := "None", platform := "etsy", created_at := w3clock 0,
    customer_name := "", customer_email := "", status := "open", currency := "USD",
    total_price := 0, items := [], fulfillment_status := some "pending",
    raw_payload := PyVal.dict [] }

/-- The Shopify order of the C3 witness run (parsed second, at clock
reading 1, which reads one second earlier than reading 0). -/
def w3sord : Order :=
  { id := "None", platform := "shopify", created_at := w3clock 1,
    customer_name := "", customer_email := "", status := "open", currency := "USD",
    total_price := 0, items := [], fulfillment_status := Option.none,
    raw_payload := PyVal.dict [] }

/-- Witness for C3: a concrete two-platform import whose collected list is
unsorted and whose `import_all` output is the stable ascending reordering. -/
theorem import_all_sorted_and_stable_witness :
    (collectOrders OrderService.default w3clock w3payload 0 =
        Except.ok [w3eord, w3sord]) ∧
    (OrderService.default.import_all w3clock w3payload =
        Except.ok [w3sord, w3eord]) ∧
    ([w3sord, w3eord].Pairwise (fun a b => dtLe a.created_at b.created_at = some true) ∧
     [w3sord, w3eord].Perm [w3eord, w3sord] ∧
     (∀ a b : Order, [a, b].Sublist [w3eord, w3sord] → createdLe a b →
        [a, b].Sublist [w3sord, w3eord])) :=
  ⟨rfl, rfl,
    import_all_sorted_and_stable OrderService.default w3clock w3payload
      [w3eord, w3sord] [w3sord, w3eord] rfl rfl⟩

/-! ## Claim C4 -/

/-- A computation that cannot fail with a `KeyError`: the service's NotFound
error can only come from the registry lookup, never from an importer. -/
def NotKeyErr {α : Type} (x : Except PyErr α) : Prop :=
  ∀ e, x = Except.error e → e.isKeyError = false

theorem notKeyErr_ok {α : Type} (a : α) : NotKeyErr (Except.ok a) := by
  intro e h
  cases h

theorem notKeyErr_bind {α β : Type} {x : Except PyErr α} {f : α → Except PyErr β}
    (hx : NotKeyErr x) (hf : ∀ a, NotKeyErr (f a)) : NotKeyErr (x >>= f) := by
  intro e h
  cases x with
  | error e2 =>
      cases h
      exact hx _ rfl
  | ok a => exact hf a e h

theorem notKeyErr_get (v : PyVal) (k : String) : NotKeyErr (v.get k) := by
  intro e h
  cases v <;> (cases h <;> rfl)

theorem notKeyErr_pyFloat (v : PyVal) : NotKeyErr (pyFloat v) := by
  intro e h
  cases v <;> try (cases h <;> rfl)
  rename_i s
  simp only [pyFloat] at h
  cases hps : pyFloatOfString s
  · rw [hps] at h
    cases h
    rfl
  · rw [hps] at h
    cases h

theorem notKeyErr_pyInt (v : PyVal) : NotKeyErr (pyInt v) := by
  intro e h
  cases v <;> try (cases h <;> rfl)
  rename_i s
  simp only [pyInt] at h
  cases hps : pyIntOfString s
  · rw [hps] at h
    cases h
    rfl
  · rw [hps] at h
    cases h

theorem notKeyErr_iter (v : PyVal) : NotKeyErr v.iter := by
  intro e h
  cases v <;> (cases h <;> rfl)

theorem notKeyErr_mapME {α β : Type} {f : α → Except PyErr β}
    (hf : ∀ a, NotKeyErr (f a)) : ∀ l, NotKeyErr (mapME f l)
  | [] => notKeyErr_ok _
  | a :: as => by
      unfold mapME
      refine notKeyErr_bind (hf a) fun b => ?_
      refine notKeyErr_bind (notKeyErr_mapME hf as) fun bs => ?_
      exact notKeyErr_ok _

theorem notKeyErr_fromtimestampUtc (q : ℚ) : NotKeyErr (fromtimestampUtc q) := by
  intro e h
  simp only [fromtimestampUtc] at h
  revert h
  split <;> intro h
  · cases h
    rfl
  · cases h

theorem notKeyErr_etsy_parse_datetime (now : PDatetime) (v : PyVal) :
    NotKeyErr (EtsyOrderImporter.parse_datetime now v) := by
  cases v <;> try exact notKeyErr_fromtimestampUtc _
  · exact notKeyErr_ok _
  · rename_i s
    simp only [EtsyOrderImporter.parse_datetime]
    by_cases hd : pyIsDigit s
    · rw [if_pos hd]
      exact notKeyErr_fromtimestampUtc _
    · rw [if_neg hd]
      cases fromisoformat s
      · exact notKeyErr_ok _
      · exact notKeyErr_ok _
  · exact notKeyErr_ok _
  · exact notKeyErr_ok _

theorem notKeyErr_etsy_parse_transaction (tx : PyVal) (cur : String) :
    NotKeyErr (EtsyOrderImporter.parse_transaction tx cur) := by
  unfold EtsyOrderImporter.parse_transaction
  refine notKeyErr_bind (notKeyErr_get _ _) fun cc => ?_
  refine notKeyErr_bind (notKeyErr_get _ _) fun pid => ?_
  refine notKeyErr_bind (notKeyErr_get _ _) fun lid => ?_
  refine notKeyErr_bind (notKeyErr_get _ _) fun ti => ?_
  refine notKeyErr_bind (notKeyErr_get _ _) fun nm => ?_
  refine notKeyErr_bind (notKeyErr_get _ _) fun qv => ?_
  refine notKeyErr_bind (notKeyErr_pyInt _) fun q => ?_
  refine notKeyErr_bind (notKeyErr_get _ _) fun pv => ?_
  refine notKeyErr_bind (notKeyErr_get _ _) fun tt => ?_
  refine notKeyErr_bind (notKeyErr_pyFloat _) fun pr => ?_
  refine notKeyErr_bind (notKeyErr_get _ _) fun tid => ?_
  exact notKeyErr_ok _

theorem notKeyErr_etsy_parse_order (now : PDatetime) (p : PyVal) :
    NotKeyErr (EtsyOrderImporter.parse_order now p) := by
  unfold EtsyOrderImporter.parse_order
  refine notKeyErr_bind (notKeyErr_get _ _) fun rid => ?_
  refine notKeyErr_bind (notKeyErr_get _ _) fun oid => ?_
  refine notKeyErr_bind (notKeyErr_get _ _) fun bv => ?_
  refine notKeyErr_bind (notKeyErr_get _ _) fun bn => ?_
  refine notKeyErr_bind (notKeyErr_get _ _) fun bu => ?_
  refine notKeyErr_bind (notKeyErr_get _ _) fun be => ?_
  refine notKeyErr_bind (notKeyErr_get _ _) fun ct => ?_
  refine notKeyErr_bind (notKeyErr_etsy_parse_datetime _ _) fun ca => ?_
  refine notKeyErr_bind (notKeyErr_get _ _) fun st => ?_
  refine notKeyErr_bind (notKeyErr_get _ _) fun cc => ?_
  refine notKeyErr_bind (notKeyErr_get _ _) fun tv => ?_
  refine notKeyErr_bind (notKeyErr_iter _) fun txs => ?_
  refine notKeyErr_bind (notKeyErr_mapME (fun tx => notKeyErr_etsy_parse_transaction tx _) txs)
    fun items => ?_
  refine notKeyErr_bind (notKeyErr_get _ _) fun gt => ?_
  refine notKeyErr_bind (notKeyErr_pyFloat _) fun tp => ?_
  refine notKeyErr_bind (notKeyErr_get _ _) fun fs => ?_
  refine notKeyErr_bind (notKeyErr_get _ _) fun wp => ?_
  exact notKeyErr_ok _

theorem notKeyErr_shopify_build_customer_name (c : PyVal) :
    NotKeyErr (ShopifyOrderImporter.build_customer_name c) := by
  unfold ShopifyOrderImporter.build_customer_name
  split
  · exact notKeyErr_ok _
  · refine notKeyErr_bind (notKeyErr_get _ _) fun fn => ?_
    refine notKeyErr_bind (notKeyErr_get _ _) fun ln => ?_
    dsimp only
    split
    · exact notKeyErr_ok _
    · refine notKeyErr_bind (notKeyErr_get _ _) fun nm => ?_
      exact notKeyErr_ok _

theorem notKeyErr_shopify_parse_line_item (it : PyVal) (cur : String) :
    NotKeyErr (ShopifyOrderImporter.parse_line_item it cur) := by
  unfold ShopifyOrderImporter.parse_line_item
  refine notKeyErr_bind (notKeyErr_get _ _) fun sk => ?_
  refine notKeyErr_bind (notKeyErr_get _ _) fun vid => ?_
  refine notKeyErr_bind (notKeyErr_get _ _) fun ti => ?_
  refine notKeyErr_bind (notKeyErr_get _ _) fun qv => ?_
  refine notKeyErr_bind (notKeyErr_pyInt _) fun q => ?_
  refine notKeyErr_bind (notKeyErr_get _ _) fun pv => ?_
  refine notKeyErr_bind (notKeyErr_pyFloat _) fun pr => ?_
  refine notKeyErr_bind (notKeyErr_get _ _) fun cu => ?_
  refine notKeyErr_bind (notKeyErr_get _ _) fun vt => ?_
  refine notKeyErr_bind (notKeyErr_get _ _) fun fs => ?_
  exact notKeyErr_ok _

theorem notKeyErr_shopify_parse_order (now : PDatetime) (p : PyVal) :
    NotKeyErr (ShopifyOrderImporter.parse_order now p) := by
  unfold ShopifyOrderImporter.parse_order
  refine notKeyErr_bind (notKeyErr_get _ _) fun idv => ?_
  refine notKeyErr_bind (notKeyErr_get _ _) fun cv => ?_
  refine notKeyErr_bind (notKeyErr_shopify_build_customer_name _) fun cn => ?_
  refine notKeyErr_bind (notKeyErr_get _ _) fun ce => ?_
  refine notKeyErr_bind (notKeyErr_get _ _) fun pe => ?_
  refine notKeyErr_bind (notKeyErr_get _ _) fun ca => ?_
  refine notKeyErr_bind (notKeyErr_get _ _) fun fin => ?_
  refine notKeyErr_bind (notKeyErr_get _ _) fun ful => ?_
  refine notKeyErr_bind (notKeyErr_get _ _) fun cu => ?_
  refine notKeyErr_bind (notKeyErr_get _ _) fun fst => ?_
  refine notKeyErr_bind (notKeyErr_get _ _) fun lv => ?_
  refine notKeyErr_bind (notKeyErr_iter _) fun lis => ?_
  refine notKeyErr_bind (notKeyErr_mapME (fun it => notKeyErr_shopify_parse_line_item it _) lis)
    fun items => ?_
  refine notKeyErr_bind (notKeyErr_get _ _) fun tp => ?_
  refine notKeyErr_bind (notKeyErr_pyFloat _) fun tpr => ?_
  exact notKeyErr_ok _

theorem notKeyErr_parse_order (imp : Importer) (now : PDatetime) (p : PyVal) :
    NotKeyErr (imp.parse_order now p) := by
  cases imp
  · exact notKeyErr_etsy_parse_order now p
  · exact notKeyErr_shopify_parse_order now p

theorem notKeyErr_import_orders_from (imp : Importer) (clock : Nat → PDatetime) :
    ∀ (i : Nat) (raws : List PyVal), NotKeyErr (imp.import_orders_from clock i raws)
  | _, [] => notKeyErr_ok _
  | i, p :: ps => by
      unfold Importer.import_orders_from
      refine notKeyErr_bind (notKeyErr_parse_order imp _ p) fun o => ?_
      refine notKeyErr_bind (notKeyErr_import_orders_from imp clock (i + 1) ps) fun os => ?_
      exact notKeyErr_ok _

/-- C4: `Service.import_orders` fails with the NotFound error (a `KeyError`)
whose message names the requested platform exactly when the lowercased
platform has no registered importer; for a registered platform it returns the
importer's own `import_orders` result, which is never a NotFound error (any
failure it propagates comes from payload shape or coercions, per §7, and is
not a `KeyError`). -/
theorem import_orders_notfound_or_delegates
    (svc : OrderService) (clock : Nat → PDatetime) (platform : String)
    (raw_orders : List PyVal) :
    (alistGet svc.importers (pyLower platform) = Option.none →
      svc.import_orders clock platform raw_orders =
        Except.error (PyErr.keyError
          ("No importer registered for platform \x27" ++ platform ++ "\x27"))) ∧
    (∀ imp, alistGet svc.importers (pyLower platform) = some imp →
      svc.import_orders clock platform raw_orders = imp.import_orders clock raw_orders ∧
      ∀ e, svc.import_orders clock platform raw_orders = Except.error e →
        e.isKeyError = false) := by
  constructor
  · intro hnone
    unfold OrderService.import_orders OrderService.get_importer
    rw [hnone]
    rfl
  · intro imp himp
    have heq : svc.import_orders clock platform raw_orders =
        imp.import_orders clock raw_orders := by
      unfold OrderService.import_orders OrderService.get_importer
      rw [himp]
      rfl
    refine ⟨heq, fun e he => ?_⟩
    rw [heq] at he
    exact notKeyErr_import_orders_from imp clock 0 raw_orders e he

/-- Witness for C4: the default service rejects the unregistered platform
"woocommerce" with a NotFound error naming it, and delegates "SHOPIFY"
(lowercased to the registered key) to the Shopify importer. -/
theorem import_orders_notfound_or_delegates_witness :
    (alistGet OrderService.default.importers (pyLower "woocommerce") = Option.none ∧
      OrderService.default.import_orders w3clock "woocommerce" [] =
        Except.error (PyErr.keyError
          "No importer registered for platform \x27woocommerce\x27")) ∧
    (alistGet OrderService.default.importers (pyLower "SHOPIFY") = some Importer.shopify ∧
      OrderService.default.import_orders w3clock "SHOPIFY" [PyVal.dict []] =
        Importer.shopify.import_orders w3clock [PyVal.dict []]) :=
  ⟨⟨rfl,
    (import_orders_notfound_or_delegates OrderService.default w3clock "woocommerce" []).1 rfl⟩,
   ⟨rfl,
    ((import_orders_notfound_or_delegates OrderService.default w3clock "SHOPIFY"
        [PyVal.dict []]).2 Importer.shopify rfl).1⟩⟩

/-! ## Success-inversion lemmas for the importers -/

theorem ok_bind {α β : Type} (a : α) (f : α → Except PyErr β) :
    (Except.ok a >>= f) = f a := rfl

/-- Reduction of `.get` on an actual dict, used to push success hypotheses
through the importer do-blocks without unfolding `.get` on opaque values. -/
theorem get_dict (es : List (String × PyVal)) (k : String) :
    PyVal.get (PyVal.dict es) k = Except.ok (dget es k) := rfl

theorem error_bind {α β : Type} (e : PyErr) (f : α → Except PyErr β) :
    ((Except.error e : Except PyErr α) >>= f) = Except.error e := rfl

/-- A successful `mapME` run succeeded pointwise, in order. -/
theorem mapME_ok_forall2 {α β : Type} {f : α → Except PyErr β} :
    ∀ {l : List α} {out : List β}, mapME f l = Except.ok out →
      List.Forall₂ (fun a b => f a = Except.ok b) l out := by
  intro l
  induction l with
  | nil =>
      intro out h
      cases h
      exact List.Forall₂.nil
  | cons a as ih =>
      intro out h
      unfold mapME at h
      cases ha : f a with
      | error e => rw [ha, error_bind] at h; cases h
      | ok b =>
          rw [ha, ok_bind] at h
          cases has : mapME f as with
          | error e => rw [has, error_bind] at h; cases h
          | ok bs =>
              rw [has, ok_bind] at h
              cases h
              exact List.Forall₂.cons ha (ih has)

/-- What a successful Etsy `parse_order` run on a dict payload consists of,
and the fields of the order it returns. -/
theorem etsy_parse_order_ok_inv {now : PDatetime} {es : List (String × PyVal)} {o : Order}
    (h : EtsyOrderImporter.parse_order now (PyVal.dict es) = Except.ok o) :
    ∃ txs items tp,
      (pyOr (dget es "transactions") (PyVal.list [])).iter = Except.ok txs ∧
      mapME (fun tx => EtsyOrderImporter.parse_transaction tx
          ((pyOr (dget es "currency_code") (PyVal.str "USD")).pyStr)) txs = Except.ok items ∧
      pyFloat (pyOr (dget es "grandtotal") (PyVal.float (sumSubtotals items))) = Except.ok tp ∧
      o.id = (pyOr (dget es "receipt_id") (dget es "order_id")).pyStr ∧
      EtsyOrderImporter.parse_datetime now (dget es "creation_tsz") = Except.ok o.created_at ∧
      o.items = items ∧
      o.total_price = tp := by
  unfold EtsyOrderImporter.parse_order at h
  simp only [get_dict, ok_bind] at h
  cases hbn : (pyOr (dget es "buyer") (PyVal.dict [])).get "name" with
  | error e => rw [hbn, error_bind] at h; cases h
  | ok bn =>
  rw [hbn, ok_bind] at h
  cases hbu : (pyOr (dget es "buyer") (PyVal.dict [])).get "username" with
  | error e => rw [hbu, error_bind] at h; cases h
  | ok bu =>
  rw [hbu, ok_bind] at h
  cases hbe : (pyOr (dget es "buyer") (PyVal.dict [])).get "email" with
  | error e => rw [hbe, error_bind] at h; cases h
  | ok be =>
  rw [hbe, ok_bind] at h
  cases hdt : EtsyOrderImporter.parse_datetime now (dget es "creation_tsz") with
  | error e => rw [hdt, error_bind] at h; cases h
  | ok ca =>
  rw [hdt, ok_bind] at h
  cases hit : (pyOr (dget es "transactions") (PyVal.list [])).iter with
  | error e => rw [hit, error_bind] at h; cases h
  | ok txs =>
  rw [hit, ok_bind] at h
  cases hmap : mapME (fun tx => EtsyOrderImporter.parse_transaction tx
      ((pyOr (dget es "currency_code") (PyVal.str "USD")).pyStr)) txs with
  | error e => rw [hmap, error_bind] at h; cases h
  | ok items =>
  rw [hmap, ok_bind] at h
  cases hfl : pyFloat (pyOr (dget es "grandtotal") (PyVal.float (sumSubtotals items))) with
  | error e => rw [hfl, error_bind] at h; cases h
  | ok tp =>
  rw [hfl, ok_bind] at h
  cases h
  exact ⟨txs, items, tp, rfl, hmap, hfl, rfl, rfl, rfl, rfl⟩

/-- What a successful Shopify `parse_order` run on a dict payload consists of,
and the fields of the order it returns. -/
theorem shopify_parse_order_ok_inv {now : PDatetime} {es : List (String × PyVal)} {o : Order}
    (h : ShopifyOrderImporter.parse_order now (PyVal.dict es) = Except.ok o) :
    ∃ lis items tp,
      (pyOr (dget es "line_items") (PyVal.list [])).iter = Except.ok lis ∧
      mapME (fun it => ShopifyOrderImporter.parse_line_item it
          ((pyOr (dget es "currency") (PyVal.str "USD")).pyStr)) lis = Except.ok items ∧
      pyFloat (pyOr (dget es "total_price") (PyVal.float (sumSubtotals items))) = Except.ok tp ∧
      o.id = (dget es "id").pyStr ∧
      o.created_at = ShopifyOrderImporter.parse_datetime now (dget es "created_at") ∧
      o.items = items ∧
      o.total_price = tp := by
  unfold ShopifyOrderImporter.parse_order at h
  simp only [get_dict, ok_bind] at h
  cases hcn : ShopifyOrderImporter.build_customer_name
      (pyOr (dget es "customer") (PyVal.dict [])) with
  | error e => rw [hcn, error_bind] at h; cases h
  | ok cn =>
  rw [hcn, ok_bind] at h
  cases hce : (pyOr (dget es "customer") (PyVal.dict [])).get "email" with
  | error e => rw [hce, error_bind] at h; cases h
  | ok ce =>
  rw [hce, ok_bind] at h
  cases hit : (pyOr (dget es "line_items") (PyVal.list [])).iter with
  | error e => rw [hit, error_bind] at h; cases h
  | ok lis =>
  rw [hit, ok_bind] at h
  cases hmap : mapME (fun it => ShopifyOrderImporter.parse_line_item it
      ((pyOr (dget es "currency") (PyVal.str "USD")).pyStr)) lis with
  | error e => rw [hmap, error_bind] at h; cases h
  | ok items =>
  rw [hmap, ok_bind] at h
  cases hfl : pyFloat (pyOr (dget es "total_price") (PyVal.float (sumSubtotals items))) with
  | error e => rw [hfl, error_bind] at h; cases h
  | ok tp =>
  rw [hfl, ok_bind] at h
  cases h
  exact ⟨lis, items, tp, rfl, hmap, hfl, rfl, rfl, rfl, rfl⟩

/-- A successful Etsy `_parse_transaction` read its quantity with `int(...)`
of the `quantity` field (0 when absent or falsy). -/
theorem etsy_parse_transaction_quantity {tx : PyVal} {cur : String} {it : OrderItem}
    (h : EtsyOrderImporter.parse_transaction tx cur = Except.ok it) :
    pyInt (pyOr (tx.getD "quantity") (PyVal.int 0)) = Except.ok it.quantity := by
  cases tx <;> try (cases h)
  rename_i es
  unfold EtsyOrderImporter.parse_transaction at h
  simp only [get_dict, ok_bind] at h
  cases hq : pyInt (pyOr (dget es "quantity") (PyVal.int 0)) with
  | error e => rw [hq, error_bind] at h; cases h
  | ok q =>
  rw [hq, ok_bind] at h
  cases hp : pyFloat (pyOr (dget es "price")
      (pyOr (dget es "transaction_total") (PyVal.float 0))) with
  | error e => rw [hp, error_bind] at h; cases h
  | ok pr =>
  rw [hp, ok_bind] at h
  cases h
  exact hq

/-- A successful Shopify `_parse_line_item` read its quantity with `int(...)`
of the `quantity` field (0 when absent or falsy). -/
theorem shopify_parse_line_item_quantity {li : PyVal} {cur : String} {it : OrderItem}
    (h : ShopifyOrderImporter.parse_line_item li cur = Except.ok it) :
    pyInt (pyOr (li.getD "quantity") (PyVal.int 0)) = Except.ok it.quantity := by
  cases li <;> try (cases h)
  rename_i es
  unfold ShopifyOrderImporter.parse_line_item at h
  simp only [get_dict, ok_bind] at h
  cases hq : pyInt (pyOr (dget es "quantity") (PyVal.int 0)) with
  | error e => rw [hq, error_bind] at h; cases h
  | ok q =>
  rw [hq, ok_bind] at h
  cases hp : pyFloat (pyOr (dget es "price") (PyVal.float 0)) with
  | error e => rw [hp, error_bind] at h; cases h
  | ok pr =>
  rw [hp, ok_bind] at h
  cases h
  exact hq

/-! ## Claim C9 -/

/-- C9: a Shopify payload with no `id` (absent, hence `.get` yields `None`)
parses without failing on that field and the order's id is the literal string
"None" (`str(None)`); likewise an Etsy payload with both `receipt_id` and
`order_id` absent. -/
theorem missing_id_becomes_literal_None_string
    (now : PDatetime) (es : List (String × PyVal)) :
    (∀ o : Order, dget es "id" = PyVal.none →
      ShopifyOrderImporter.parse_order now (PyVal.dict es) = Except.ok o → o.id = "None") ∧
    (∀ o : Order, dget es "receipt_id" = PyVal.none → dget es "order_id" = PyVal.none →
      EtsyOrderImporter.parse_order now (PyVal.dict es) = Except.ok o → o.id = "None") := by
  constructor
  · intro o hid h
    obtain ⟨lis, items, tp, hit, hmap, hfl, hoid, hrest⟩ := shopify_parse_order_ok_inv h
    rw [hoid, hid]
    rfl
  · intro o hrid hoid2 h
    obtain ⟨txs, items, tp, hit, hmap, hfl, hoid, hrest⟩ := etsy_parse_order_ok_inv h
    rw [hoid, hrid, hoid2]
    rfl

/-- Witness for C9: both importers on the empty payload. -/
theorem missing_id_becomes_literal_None_string_witness :
    (dget ([] : List (String × PyVal)) "id" = PyVal.none ∧
      ShopifyOrderImporter.parse_order (w3clock 1) (PyVal.dict []) = Except.ok w3sord ∧
      w3sord.id = "None") ∧
    (dget ([] : List (String × PyVal)) "receipt_id" = PyVal.none ∧
      EtsyOrderImporter.parse_order (w3clock 0) (PyVal.dict []) = Except.ok w3eord ∧
      w3eord.id = "None") :=
  ⟨⟨rfl, rfl, (missing_id_becomes_literal_None_string (w3clock 1) []).1 w3sord rfl rfl⟩,
   ⟨rfl, rfl, (missing_id_becomes_literal_None_string (w3clock 0) []).2 w3eord rfl rfl rfl⟩⟩

/-! ## Claim C6 -/

/-- The transactions of the C6 counterexample payload. -/
def c6tx : PyVal := PyVal.dict [("quantity", PyVal.int 1), ("price", PyVal.int 5)]

/-- C6 counterexample payload: `grandtotal` is present but equals 0, so the
code's `or` falls through to the item-subtotal sum. -/
def c6entries : List (String × PyVal) :=
  [("grandtotal", PyVal.int 0), ("transactions", PyVal.list [c6tx])]

/-- The single parsed item of the C6 counterexample. -/
def c6item : OrderItem :=
  { sku := "", name := "", quantity := 1, price := ((5 : Int) : ℚ), currency := "USD",
    metadata := [("transaction_id", "")] }

/-- C6 counterexample: `grandtotal` is present (with value 0) in the payload,
yet the parsed total_price is 5, the transaction subtotal sum — so total_price
is not the grandtotal field whenever that field is present, refuting the
claim; the `or` fallback also triggers on present-but-falsy values. -/
theorem etsy_present_grandtotal_ignored_when_falsy :
    dget c6entries "grandtotal" = PyVal.int 0 ∧
    pyFloat (PyVal.int 0) = Except.ok (0 : ℚ) ∧
    (EtsyOrderImporter.parse_order (w3clock 0) (PyVal.dict c6entries)).map Order.total_price =
      Except.ok 5 ∧
    (5 : ℚ) ≠ 0 := by
  refine ⟨rfl, ?_, ?_, by norm_num⟩
  · show Except.ok (((0 : Int) : ℚ)) = Except.ok (0 : ℚ)
    norm_num
  · have h1 : (EtsyOrderImporter.parse_order (w3clock 0) (PyVal.dict c6entries)).map
        Order.total_price = Except.ok (sumSubtotals [c6item]) := rfl
    have h2 : sumSubtotals [c6item] = 5 := by
      show c6item.price * ((c6item.quantity : Int) : ℚ) + 0 = 5
      show ((5 : Int) : ℚ) * ((1 : Int) : ℚ) + 0 = 5
      norm_num
    rw [h1, h2]

/-- C6 amended: the parsed Etsy total_price is `float(grandtotal)` when the
`grandtotal` field is present AND truthy (non-zero, non-empty); when it is
absent or falsy, total_price is the sum of item price times item quantity
over the parsed transactions. -/
theorem etsy_total_price_grandtotal_or_sum
    (now : PDatetime) (es : List (String × PyVal)) (o : Order)
    (h : EtsyOrderImporter.parse_order now (PyVal.dict es) = Except.ok o) :
    ((dget es "grandtotal").truthy = true →
      pyFloat (dget es "grandtotal") = Except.ok o.total_price) ∧
    ((dget es "grandtotal").truthy = false →
      o.total_price = sumSubtotals o.items) := by
  obtain ⟨txs, items, tp, hit, hmap, hfl, hoid, hca, hitems, htp⟩ := etsy_parse_order_ok_inv h
  constructor
  · intro htruthy
    rw [htp]
    rw [pyOr, htruthy] at hfl
    simpa using hfl
  · intro hfalsy
    rw [pyOr, hfalsy] at hfl
    simp only [Bool.false_eq_true, if_false] at hfl
    have : tp = sumSubtotals items := by
      have h2 : pyFloat (PyVal.float (sumSubtotals items)) = Except.ok (sumSubtotals items) := rfl
      rw [h2] at hfl
      cases hfl
      rfl
    rw [htp, hitems, this]

/-- The order parsed from the C6 witness payload (truthy integer
grandtotal). -/
def w6ord : Order :=
  { id := "None", platform := "etsy", created_at := w3clock 0,
    customer_name := "", customer_email := "", status := "open", currency := "USD",
    total_price := ((12 : Int) : ℚ), items := [], fulfillment_status := some "pending",
    raw_payload := PyVal.dict [("grandtotal", PyVal.int 12)] }

/-- Witness for the amended C6: a truthy grandtotal of 12 becomes the
total_price. -/
theorem etsy_total_price_grandtotal_or_sum_witness :
    (EtsyOrderImporter.parse_order (w3clock 0)
        (PyVal.dict [("grandtotal", PyVal.int 12)]) = Except.ok w6ord) ∧
    (dget [("grandtotal", PyVal.int 12)] "grandtotal").truthy = true ∧
    pyFloat (dget [("grandtotal", PyVal.int 12)] "grandtotal") = Except.ok w6ord.total_price :=
  ⟨rfl, rfl,
    (etsy_total_price_grandtotal_or_sum (w3clock 0) [("grandtotal", PyVal.int 12)] w6ord
      rfl).1 rfl⟩

/-! ## Claim C2 -/

/-- C2 counterexample: with an aware wall clock, an ISO-8601 timestamp with no
UTC offset yields a timezone-NAIVE `created_at` from the Etsy importer, and
the Shopify date-parsing routine likewise returns a naive datetime — refuting
the claim that every produced datetime is timezone-aware. -/
theorem iso_without_offset_gives_naive_created_at :
    (w3clock 0).tz.isSome = true ∧
    ((EtsyOrderImporter.parse_order (w3clock 0)
        (PyVal.dict [("creation_tsz", PyVal.str "2023-01-02T03:04:05")])).map
      (fun o => o.created_at.tz) = Except.ok Option.none) ∧
    (ShopifyOrderImporter.parse_datetime (w3clock 0)
        (PyVal.str "2023-01-02T03:04:05")).tz = Option.none :=
  ⟨rfl, rfl, rfl⟩

/-- C2 amended: with an aware clock, every datetime the Etsy and Shopify
date-parsing routines RETURN is timezone-aware EXCEPT when the input is an
ISO-8601 string without a UTC offset, in which case `fromisoformat` yields a
naive datetime (the Etsy routine may instead raise on an out-of-range epoch
and then returns no datetime at all); and `created_at` of a parsed order is
exactly the datetime the routine returned on the payload's timestamp
field. -/
theorem parse_datetime_awareness (now : PDatetime) (hnow : now.tz.isSome = true) (v : PyVal) :
    (∀ d, EtsyOrderImporter.parse_datetime now v = Except.ok d →
      (d.tz.isSome = true ∨
        (∃ s, v = PyVal.str s ∧ fromisoformat s = some d ∧ d.tz = Option.none))) ∧
    ((ShopifyOrderImporter.parse_datetime now v).tz.isSome = true ∨
      (∃ s, v = PyVal.str s ∧
        fromisoformat (replaceZ s) = some (ShopifyOrderImporter.parse_datetime now v) ∧
        (ShopifyOrderImporter.parse_datetime now v).tz = Option.none)) ∧
    (∀ es o, EtsyOrderImporter.parse_order now (PyVal.dict es) = Except.ok o →
      EtsyOrderImporter.parse_datetime now (dget es "creation_tsz") =
        Except.ok o.created_at) ∧
    (∀ es o, ShopifyOrderImporter.parse_order now (PyVal.dict es) = Except.ok o →
      o.created_at = ShopifyOrderImporter.parse_datetime now (dget es "created_at")) := by
  have hts : ∀ (q : ℚ) (d : PDatetime), fromtimestampUtc q = Except.ok d →
      d.tz.isSome = true := by
    intro q d h
    simp only [fromtimestampUtc] at h
    revert h
    split <;> intro h
    · cases h
    · cases h
      rfl
  refine ⟨?_, ?_, ?_, ?_⟩
  · intro d hd
    cases v
    case bool b => exact Or.inl (hts _ d hd)
    case int n => exact Or.inl (hts _ d hd)
    case float q => exact Or.inl (hts _ d hd)
    case str s =>
      simp only [EtsyOrderImporter.parse_datetime] at hd
      by_cases hdig : pyIsDigit s
      · rw [if_pos hdig] at hd
        exact Or.inl (hts _ d hd)
      · rw [if_neg hdig] at hd
        cases hiso : fromisoformat s with
        | none =>
            rw [hiso] at hd
            cases hd
            exact Or.inl hnow
        | some d2 =>
            rw [hiso] at hd
            have hd2 : d2 = d := by injection hd
            cases htz : d.tz with
            | none => exact Or.inr ⟨s, rfl, by rw [hiso, hd2], rfl⟩
            | some off => exact Or.inl rfl
    all_goals (cases hd; exact Or.inl hnow)
  · cases v <;> try (left; exact hnow)
    rename_i s
    cases hiso : fromisoformat (replaceZ s) with
    | none =>
        left
        simp [ShopifyOrderImporter.parse_datetime, hiso]
        exact hnow
    | some d =>
        cases htz : d.tz with
        | none =>
            right
            refine ⟨s, rfl, ?_, ?_⟩ <;> simp [ShopifyOrderImporter.parse_datetime, hiso, htz]
        | some off =>
            left
            simp [ShopifyOrderImporter.parse_datetime, hiso, htz]
  · intro es o h
    obtain ⟨txs, items, tp, hit, hmap, hfl, hoid, hca, hrest⟩ := etsy_parse_order_ok_inv h
    exact hca
  · intro es o h
    obtain ⟨lis, items, tp, hit, hmap, hfl, hoid, hca, hrest⟩ := shopify_parse_order_ok_inv h
    exact hca

/-- Witness for the amended C2: an epoch-seconds timestamp at an aware
clock. -/
theorem parse_datetime_awareness_witness :
    (w3clock 0).tz.isSome = true ∧
    ((∀ d, EtsyOrderImporter.parse_datetime (w3clock 0) (PyVal.int 1700000000) =
        Except.ok d →
      (d.tz.isSome = true ∨
        (∃ s, PyVal.int 1700000000 = PyVal.str s ∧ fromisoformat s = some d ∧
          d.tz = Option.none))) ∧
     ((ShopifyOrderImporter.parse_datetime (w3clock 0) (PyVal.int 1700000000)).tz.isSome = true ∨
      (∃ s, PyVal.int 1700000000 = PyVal.str s ∧
        fromisoformat (replaceZ s) =
          some (ShopifyOrderImporter.parse_datetime (w3clock 0) (PyVal.int 1700000000)) ∧
        (ShopifyOrderImporter.parse_datetime (w3clock 0) (PyVal.int 1700000000)).tz =
          Option.none)) ∧
     (∀ es o, EtsyOrderImporter.parse_order (w3clock 0) (PyVal.dict es) = Except.ok o →
        EtsyOrderImporter.parse_datetime (w3clock 0) (dget es "creation_tsz") =
          Except.ok o.created_at) ∧
     (∀ es o, ShopifyOrderImporter.parse_order (w3clock 0) (PyVal.dict es) = Except.ok o →
        o.created_at =
          ShopifyOrderImporter.parse_datetime (w3clock 0) (dget es "created_at"))) :=
  ⟨rfl, parse_datetime_awareness (w3clock 0) rfl (PyVal.int 1700000000)⟩

/-! ## Claim C7 -/

/-- Projection of a parse result to its order's `created_at`. -/
def createdOf : Except PyErr Order → Option PDatetime
  | Except.ok o => some o.created_at
  | Except.error _ => Option.none

/-- C7 counterexample: importing the SAME payload twice, at two wall-clock
instants one second apart, yields orders whose `created_at` fields differ (the
missing-timestamp fallback reads the clock), refuting the claim that repeated
imports of payloads with missing or unparsable timestamps give identical field
values. -/
theorem repeated_import_not_identical :
    createdOf (EtsyOrderImporter.parse_order (w3clock 0) (PyVal.dict [])) ≠
      createdOf (EtsyOrderImporter.parse_order (w3clock 1) (PyVal.dict [])) ∧
    createdOf (ShopifyOrderImporter.parse_order (w3clock 0) (PyVal.dict [])) ≠
      createdOf (ShopifyOrderImporter.parse_order (w3clock 1) (PyVal.dict [])) := by
  constructor <;> decide

/-- Whether an Etsy timestamp value is parsed without consulting the wall
clock (numeric, digit string, or ISO-parsable string). -/
def etsyTsStable (v : PyVal) : Bool :=
  match v with
  | .bool _ => true
  | .int _ => true
  | .float _ => true
  | .str s => pyIsDigit s || (fromisoformat s).isSome
  | _ => false

/-- Whether a Shopify timestamp value is parsed without consulting the wall
clock (ISO-parsable string after the Z rewrite). -/
def shopifyTsStable (v : PyVal) : Bool :=
  match v with
  | .str s => (fromisoformat (replaceZ s)).isSome
  | _ => false

theorem etsy_parse_datetime_stable {v : PyVal} (h : etsyTsStable v = true)
    (n1 n2 : PDatetime) :
    EtsyOrderImporter.parse_datetime n1 v = EtsyOrderImporter.parse_datetime n2 v := by
  cases v <;> try rfl
  · cases h
  · rename_i s
    simp only [EtsyOrderImporter.parse_datetime]
    by_cases hd : pyIsDigit s
    · simp [hd]
    · cases hiso : fromisoformat s with
      | none => simp [etsyTsStable, hd, hiso] at h
      | some d => simp [hd, hiso]
  · cases h
  · cases h

theorem shopify_parse_datetime_stable {v : PyVal} (h : shopifyTsStable v = true)
    (n1 n2 : PDatetime) :
    ShopifyOrderImporter.parse_datetime n1 v = ShopifyOrderImporter.parse_datetime n2 v := by
  cases v <;> try cases h
  rename_i s
  unfold ShopifyOrderImporter.parse_datetime
  cases hiso : fromisoformat (replaceZ s) with
  | none => simp [shopifyTsStable, hiso] at h
  | some d => simp [hiso]

/-- C7 amended: `parse_order` is a pure deterministic function of the payload
AND the wall clock; two imports of an identical payload agree whenever the
payload's timestamp field parses (numeric, digit-string or valid ISO) — only
the current-time fallback for a missing or unparsable timestamp depends on
the clock, and then only `created_at` differs. -/
theorem parse_order_deterministic_when_timestamp_parses
    (n1 n2 : PDatetime) (p : PyVal) :
    (etsyTsStable (p.getD "creation_tsz") = true →
      EtsyOrderImporter.parse_order n1 p = EtsyOrderImporter.parse_order n2 p) ∧
    (shopifyTsStable (p.getD "created_at") = true →
      ShopifyOrderImporter.parse_order n1 p = ShopifyOrderImporter.parse_order n2 p) := by
  constructor
  · intro h
    cases p
    case dict es =>
      simp only [PyVal.getD] at h
      have hd := etsy_parse_datetime_stable h n1 n2
      simp only [EtsyOrderImporter.parse_order, get_dict, ok_bind]
      rw [hd]
    all_goals rfl
  · intro h
    cases p
    case dict es =>
      simp only [PyVal.getD] at h
      have hd := shopify_parse_datetime_stable h n1 n2
      simp only [ShopifyOrderImporter.parse_order, get_dict, ok_bind]
      rw [hd]
    all_goals rfl

/-- Witness for the amended C7: the same epoch-stamped payload imported at two
different clock readings parses identically. -/
theorem parse_order_deterministic_when_timestamp_parses_witness :
    (etsyTsStable ((PyVal.dict [("creation_tsz", PyVal.int 1700000000)]).getD
        "creation_tsz") = true ∧
      EtsyOrderImporter.parse_order (w3clock 0)
          (PyVal.dict [("creation_tsz", PyVal.int 1700000000)]) =
        EtsyOrderImporter.parse_order (w3clock 1)
          (PyVal.dict [("creation_tsz", PyVal.int 1700000000)])) ∧
    (shopifyTsStable ((PyVal.dict [("created_at", PyVal.str "2024-05-10T14:30:00Z")]).getD
        "created_at") = true ∧
      ShopifyOrderImporter.parse_order (w3clock 0)
          (PyVal.dict [("created_at", PyVal.str "2024-05-10T14:30:00Z")]) =
        ShopifyOrderImporter.parse_order (w3clock 1)
          (PyVal.dict [("created_at", PyVal.str "2024-05-10T14:30:00Z")])) :=
  ⟨⟨rfl,
    (parse_order_deterministic_when_timestamp_parses (w3clock 0) (w3clock 1)
        (PyVal.dict [("creation_tsz", PyVal.int 1700000000)])).1 rfl⟩,
   ⟨rfl,
    (parse_order_deterministic_when_timestamp_parses (w3clock 0) (w3clock 1)
        (PyVal.dict [("created_at", PyVal.str "2024-05-10T14:30:00Z")])).2 rfl⟩⟩

/-! ## Claim C8 -/

/-- C8 counterexample: an Etsy transaction with quantity -3 parses to an
`OrderItem` with quantity -3 — importer-produced item quantities are not
always non-negative. -/
theorem negative_quantity_passes_through :
    ((EtsyOrderImporter.parse_order (w3clock 0)
        (PyVal.dict [("grandtotal", PyVal.int 7),
                     ("transactions", PyVal.list [PyVal.dict [("quantity", PyVal.int (-3))]])])).map
      (fun o => o.items.map OrderItem.quantity) = Except.ok [-3]) ∧
    ¬(0 ≤ (-3 : Int)) := by
  constructor
  · rfl
  · decide

/-- Every member of the right list of a pointwise relation has a related
member on the left. -/
theorem forall2_exists_left {α β : Type} {R : α → β → Prop} :
    ∀ {l1 : List α} {l2 : List β}, List.Forall₂ R l1 l2 →
      ∀ b ∈ l2, ∃ a ∈ l1, R a b := by
  intro l1 l2 h
  induction h with
  | nil => intro b hb; cases hb
  | cons hr _ ih =>
      intro b hb
      rcases List.mem_cons.mp hb with hb | hb
      · subst hb
        exact ⟨_, List.mem_cons_self _ _, hr⟩
      · obtain ⟨a, ha, har⟩ := ih b hb
        exact ⟨a, List.mem_cons_of_mem _ ha, har⟩

/-- C8 amended: each parsed item's quantity is exactly `int(...)` of its
payload's `quantity` field (0 when absent or falsy); consequently quantities
— and the order's total_quantity — are non-negative whenever every source
quantity coerces to a non-negative integer, but a negative source value
passes through as a negative quantity. -/
theorem item_quantities_follow_source
    (now : PDatetime) (es : List (String × PyVal)) (o : Order) (srcs : List PyVal) :
    (EtsyOrderImporter.parse_order now (PyVal.dict es) = Except.ok o →
      (pyOr (dget es "transactions") (PyVal.list [])).iter = Except.ok srcs →
      List.Forall₂
        (fun tx it => pyInt (pyOr (tx.getD "quantity") (PyVal.int 0)) = Except.ok it.quantity)
        srcs o.items ∧
      ((∀ tx ∈ srcs, ∀ n : Int,
          pyInt (pyOr (tx.getD "quantity") (PyVal.int 0)) = Except.ok n → 0 ≤ n) →
        (∀ it ∈ o.items, 0 ≤ it.quantity) ∧ 0 ≤ o.total_quantity)) ∧
    (ShopifyOrderImporter.parse_order now (PyVal.dict es) = Except.ok o →
      (pyOr (dget es "line_items") (PyVal.list [])).iter = Except.ok srcs →
      List.Forall₂
        (fun li it => pyInt (pyOr (li.getD "quantity") (PyVal.int 0)) = Except.ok it.quantity)
        srcs o.items ∧
      ((∀ li ∈ srcs, ∀ n : Int,
          pyInt (pyOr (li.getD "quantity") (PyVal.int 0)) = Except.ok n → 0 ≤ n) →
        (∀ it ∈ o.items, 0 ≤ it.quantity) ∧ 0 ≤ o.total_quantity)) := by
  have nonneg_of_forall2 :
      ∀ (srcs2 : List PyVal) (o2 : Order),
        List.Forall₂
          (fun tx it => pyInt (pyOr (PyVal.getD tx "quantity") (PyVal.int 0)) =
            Except.ok it.quantity) srcs2 o2.items →
        (∀ tx ∈ srcs2, ∀ n : Int,
            pyInt (pyOr (PyVal.getD tx "quantity") (PyVal.int 0)) = Except.ok n → 0 ≤ n) →
        (∀ it ∈ o2.items, 0 ≤ it.quantity) ∧ 0 ≤ o2.total_quantity := by
    intro srcs2 o2 hf2 hsrc
    have hitems : ∀ it ∈ o2.items, 0 ≤ it.quantity := by
      intro it hit
      obtain ⟨tx, htx, hrel⟩ := forall2_exists_left hf2 it hit
      exact hsrc tx htx it.quantity hrel
    refine ⟨hitems, ?_⟩
    unfold Order.total_quantity
    apply List.sum_nonneg
    intro x hx
    obtain ⟨it, hit, hq⟩ := List.mem_map.mp hx
    rw [← hq]
    exact hitems it hit
  constructor
  · intro h hiter
    obtain ⟨txs, items, tp, hit, hmap, hfl, hoid, hca, hitems, htp⟩ := etsy_parse_order_ok_inv h
    have hsrcs : srcs = txs := by
      rw [hit] at hiter
      cases hiter
      rfl
    subst hsrcs
    have hf : List.Forall₂
        (fun tx it => pyInt (pyOr (tx.getD "quantity") (PyVal.int 0)) = Except.ok it.quantity)
        srcs o.items := by
      rw [hitems]
      refine List.Forall₂.imp ?_ (mapME_ok_forall2 hmap)
      intro tx it hok
      exact etsy_parse_transaction_quantity hok
    exact ⟨hf, fun hs => nonneg_of_forall2 srcs o hf hs⟩
  · intro h hiter
    obtain ⟨lis, items, tp, hit, hmap, hfl, hoid, hca, hitems, htp⟩ := shopify_parse_order_ok_inv h
    have hsrcs : srcs = lis := by
      rw [hit] at hiter
      cases hiter
      rfl
    subst hsrcs
    have hf : List.Forall₂
        (fun li it => pyInt (pyOr (li.getD "quantity") (PyVal.int 0)) = Except.ok it.quantity)
        srcs o.items := by
      rw [hitems]
      refine List.Forall₂.imp ?_ (mapME_ok_forall2 hmap)
      intro li it hok
      exact shopify_parse_line_item_quantity hok
    exact ⟨hf, fun hs => nonneg_of_forall2 srcs o hf hs⟩

/-- The single transaction of the C8 witness payload. -/
def w8tx : PyVal := PyVal.dict [("quantity", PyVal.int 2)]

/-- The C8 witness payload entries. -/
def w8entries : List (String × PyVal) :=
  [("grandtotal", PyVal.int 7), ("transactions", PyVal.list [w8tx])]

/-- The item parsed from the C8 witness transaction. -/
def w8item : OrderItem :=
  { sku := "", name := "", quantity := 2, price := 0, currency := "USD",
    metadata := [("transaction_id", "")] }

/-- The order parsed from the C8 witness payload. -/
def w8ord : Order :=
  { id := "None", platform := "etsy", created_at := w3clock 0,
    customer_name := "", customer_email := "", status := "open", currency := "USD",
    total_price := ((7 : Int) : ℚ), items := [w8item], fulfillment_status := some "pending",
    raw_payload := PyVal.dict w8entries }

/-- Witness for the amended C8: a non-negative source quantity of 2 produces
item quantity 2 and a non-negative total. -/
theorem item_quantities_follow_source_witness :
    (EtsyOrderImporter.parse_order (w3clock 0) (PyVal.dict w8entries) = Except.ok w8ord) ∧
    ((pyOr (dget w8entries "transactions") (PyVal.list [])).iter = Except.ok [w8tx]) ∧
    List.Forall₂
      (fun tx it => pyInt (pyOr (tx.getD "quantity") (PyVal.int 0)) = Except.ok it.quantity)
      [w8tx] w8ord.items ∧
    ((∀ it ∈ w8ord.items, 0 ≤ it.quantity) ∧ 0 ≤ w8ord.total_quantity) := by
  have h := (item_quantities_follow_source (w3clock 0) w8entries w8ord [w8tx]).1 rfl rfl
  refine ⟨rfl, rfl, h.1, h.2 ?_⟩
  intro tx htx n hn
  rw [List.mem_singleton] at htx
  subst htx
  cases hn
  decide

/-! ## Claim C1 -/

/-- C1 counterexample: a present but malformed numeric string raises — Etsy's
`float(grandtotal or ...)` raises `ValueError` on `"abc"`, and Shopify's
`int(quantity or 0)` raises `ValueError` on `"1.5"` — and even a well-formed
numeric DATE field raises when out of datetime's range: a millisecond epoch
such as `creation_tsz = 1700000000000` makes the unguarded `fromtimestamp`
raise `ValueError` naming year 55840.  So `parse_order` is not a total
function over mapping-shaped payloads, and malformed/out-of-range date fields
are not always resolved by the fallback. -/
theorem malformed_numeric_string_raises :
    (EtsyOrderImporter.parse_order (w3clock 0)
        (PyVal.dict [("grandtotal", PyVal.str "abc")]) =
      Except.error (PyErr.valueError "could not convert string to float: \x27abc\x27")) ∧
    (ShopifyOrderImporter.parse_order (w3clock 0)
        (PyVal.dict [("line_items", PyVal.list [PyVal.dict [("quantity", PyVal.str "1.5")]])]) =
      Except.error (PyErr.valueError "invalid literal for int() with base 10: \x271.5\x27")) ∧
    (EtsyOrderImporter.parse_order (w3clock 0)
        (PyVal.dict [("creation_tsz", PyVal.int 1700000000000)]) =
      Except.error (PyErr.valueError "year 55840 is out of range")) :=
  ⟨rfl, rfl, rfl⟩

/-- A numeric field passes when absent or falsy (fallback applies) or when its
value coerces with `float(...)`. -/
def numFieldOk (v : PyVal) : Bool := !v.truthy || (pyFloat v).isOk

/-- An integer field passes when absent or falsy or when its value coerces
with `int(...)`. -/
def intFieldOk (v : PyVal) : Bool := !v.truthy || (pyInt v).isOk

/-- Whether a value is a dict. -/
def isDictV : PyVal → Bool
  | .dict _ => true
  | _ => false

/-- Well-formedness of one Etsy transaction payload: a mapping whose quantity
and price/transaction_total coerce. -/
def etsyTxOk (tx : PyVal) : Bool :=
  match tx with
  | .dict es => intFieldOk (dget es "quantity") &&
      numFieldOk (pyOr (dget es "price") (dget es "transaction_total"))
  | _ => false

/-- Timestamp-field well-formedness for Etsy: numeric and digit-string epochs
must lie within datetime's supported years 1-9999 (the source's unguarded
`fromtimestamp` raises otherwise), and timestamp strings are restricted to
ASCII (a non-ASCII Unicode digit string would satisfy `isdigit` yet make
`float()` raise, a path outside this ASCII string model).  Any other value
falls back to the current time and never raises. -/
def etsyDateOk (v : PyVal) : Bool :=
  match v with
  | .bool b => (fromtimestampUtc (if b then 1 else 0)).isOk
  | .int n => (fromtimestampUtc ((n : Int) : ℚ)).isOk
  | .float q => (fromtimestampUtc q).isOk
  | .str s => s.data.all (fun c => c.toNat < 128) &&
      (!pyIsDigit s || (fromtimestampUtc ((natOfDigits s.data : ℚ))).isOk)
  | _ => true

/-- Well-formedness of an Etsy payload: a mapping whose buyer is a mapping (or
absent/falsy), whose transactions are a list (or absent/falsy) of well-formed
transactions, whose grandtotal coerces when truthy, and whose timestamp field
satisfies `etsyDateOk` (in-range epochs; ISO and unparsable strings are fine,
they fall back). -/
def etsyPayloadOk (p : PyVal) : Bool :=
  match p with
  | .dict es =>
      isDictV (pyOr (dget es "buyer") (PyVal.dict [])) &&
      (match pyOr (dget es "transactions") (PyVal.list []) with
       | .list txs => txs.all etsyTxOk
       | _ => false) &&
      numFieldOk (dget es "grandtotal") &&
      etsyDateOk (dget es "creation_tsz")
  | _ => false

/-- Well-formedness of one Shopify line item payload. -/
def shopifyLiOk (li : PyVal) : Bool :=
  match li with
  | .dict es => intFieldOk (dget es "quantity") && numFieldOk (dget es "price")
  | _ => false

/-- Well-formedness of a Shopify payload, analogous to `etsyPayloadOk`. -/
def shopifyPayloadOk (p : PyVal) : Bool :=
  match p with
  | .dict es =>
      isDictV (pyOr (dget es "customer") (PyVal.dict [])) &&
      (match pyOr (dget es "line_items") (PyVal.list []) with
       | .list lis => lis.all shopifyLiOk
       | _ => false) &&
      numFieldOk (dget es "total_price")
  | _ => false

theorem isOk_exists {α : Type} {x : Except PyErr α} (h : x.isOk = true) :
    ∃ a, x = Except.ok a := by
  cases x with
  | ok a => exact ⟨a, rfl⟩
  | error e => cases h

/-- A timestamp field passing `etsyDateOk` cannot make the Etsy date parse
raise. -/
theorem etsyDateOk_sound {v : PyVal} (now : PDatetime) (h : etsyDateOk v = true) :
    ∃ d, EtsyOrderImporter.parse_datetime now v = Except.ok d := by
  cases v
  case bool b => exact isOk_exists h
  case int n => exact isOk_exists h
  case float q => exact isOk_exists h
  case str s =>
    rw [etsyDateOk, Bool.and_eq_true] at h
    obtain ⟨hascii, hd⟩ := h
    simp only [EtsyOrderImporter.parse_datetime]
    by_cases hdig : pyIsDigit s
    · rw [if_pos hdig]
      rw [hdig] at hd
      simp only [Bool.not_true, Bool.false_or] at hd
      exact isOk_exists hd
    · rw [if_neg hdig]
      cases fromisoformat s
      · exact ⟨now, rfl⟩
      · exact ⟨_, rfl⟩
  all_goals exact ⟨now, rfl⟩

theorem isDictV_sound {v : PyVal} (h : isDictV v = true) :
    ∃ es, v = PyVal.dict es := by
  cases v <;> try cases h
  exact ⟨_, rfl⟩

theorem intFieldOk_sound {v : PyVal} (h : intFieldOk v = true) :
    ∃ n, pyInt (pyOr v (PyVal.int 0)) = Except.ok n := by
  by_cases ht : v.truthy
  · have h2 : pyOr v (PyVal.int 0) = v := by simp [pyOr, ht]
    rw [h2]
    unfold intFieldOk at h
    rw [ht] at h
    exact isOk_exists (by simpa using h)
  · have h2 : pyOr v (PyVal.int 0) = PyVal.int 0 := by simp [pyOr, ht]
    rw [h2]
    exact ⟨0, rfl⟩

theorem numFieldOk_sound {v : PyVal} (S : ℚ) (h : numFieldOk v = true) :
    ∃ q, pyFloat (pyOr v (PyVal.float S)) = Except.ok q := by
  by_cases ht : v.truthy
  · have h2 : pyOr v (PyVal.float S) = v := by simp [pyOr, ht]
    rw [h2]
    unfold numFieldOk at h
    rw [ht] at h
    exact isOk_exists (by simpa using h)
  · have h2 : pyOr v (PyVal.float S) = PyVal.float S := by simp [pyOr, ht]
    rw [h2]
    exact ⟨S, rfl⟩

theorem numFieldOk_chain_sound {a b : PyVal} (h : numFieldOk (pyOr a b) = true) :
    ∃ q, pyFloat (pyOr a (pyOr b (PyVal.float 0))) = Except.ok q := by
  by_cases ha : a.truthy
  · have h1 : pyOr a b = a := by simp [pyOr, ha]
    have h2 : pyOr a (pyOr b (PyVal.float 0)) = a := by simp [pyOr, ha]
    rw [h1] at h
    rw [h2]
    unfold numFieldOk at h
    rw [ha] at h
    exact isOk_exists (by simpa using h)
  · have h1 : pyOr a b = b := by simp [pyOr, ha]
    have h2 : pyOr a (pyOr b (PyVal.float 0)) = pyOr b (PyVal.float 0) := by
      simp [pyOr, ha]
    rw [h1] at h
    rw [h2]
    exact numFieldOk_sound 0 h

/-- Reduction of iteration on an actual list. -/
theorem iter_list (xs : List PyVal) : (PyVal.list xs).iter = Except.ok xs := rfl

theorem etsyTxOk_sound {tx : PyVal} (cur : String) (h : etsyTxOk tx = true) :
    ∃ it, EtsyOrderImporter.parse_transaction tx cur = Except.ok it := by
  cases tx
  case dict es =>
    rw [etsyTxOk, Bool.and_eq_true] at h
    obtain ⟨hq, hp⟩ := h
    obtain ⟨n, hn⟩ := intFieldOk_sound hq
    obtain ⟨q, hqq⟩ := numFieldOk_chain_sound hp
    unfold EtsyOrderImporter.parse_transaction
    simp only [get_dict, ok_bind]
    rw [hn, ok_bind, hqq, ok_bind]
    exact ⟨_, rfl⟩
  all_goals exact Bool.noConfusion h

theorem shopifyLiOk_sound {li : PyVal} (cur : String) (h : shopifyLiOk li = true) :
    ∃ it, ShopifyOrderImporter.parse_line_item li cur = Except.ok it := by
  cases li
  case dict es =>
    rw [shopifyLiOk, Bool.and_eq_true] at h
    obtain ⟨hq, hp⟩ := h
    obtain ⟨n, hn⟩ := intFieldOk_sound hq
    obtain ⟨q, hqq⟩ := numFieldOk_sound 0 hp
    unfold ShopifyOrderImporter.parse_line_item
    simp only [get_dict, ok_bind]
    rw [hn, ok_bind, hqq, ok_bind]
    exact ⟨_, rfl⟩
  all_goals exact Bool.noConfusion h

theorem mapME_ok_of_all {α β : Type} {f : α → Except PyErr β} :
    ∀ {l : List α}, (∀ a ∈ l, ∃ b, f a = Except.ok b) → ∃ out, mapME f l = Except.ok out
  | [] => fun _ => ⟨[], rfl⟩
  | a :: as => fun h => by
      obtain ⟨b, hb⟩ := h a (List.mem_cons_self a as)
      obtain ⟨out, hout⟩ := mapME_ok_of_all (fun x hx => h x (List.mem_cons_of_mem a hx))
      refine ⟨b :: out, ?_⟩
      unfold mapME
      rw [hb, ok_bind, hout, ok_bind]

theorem build_customer_name_dict_ok (bs : List (String × PyVal)) :
    ∃ s, ShopifyOrderImporter.build_customer_name (PyVal.dict bs) = Except.ok s := by
  unfold ShopifyOrderImporter.build_customer_name
  split
  · exact ⟨"", rfl⟩
  · simp only [get_dict, ok_bind]
    split
    · exact ⟨_, rfl⟩
    · exact ⟨_, rfl⟩

/-- C1 amended: missing or falsy fields never raise (every fallback applies),
and unparsable DATE STRINGS never raise (they fall back to the current time);
`parse_order` returns an Order for every payload whose nested buyer/customer
is a mapping (or falsy), whose transactions/line_items are a list (or falsy)
of mappings, whose present truthy numeric fields coerce, and whose Etsy
timestamp — when numeric or a digit string — denotes an epoch within
datetime's supported years 1-9999.  It is NOT total over all mapping-shaped
inputs: a present truthy malformed numeric string for
grandtotal/total_price/price/quantity raises `ValueError`, and so does an
out-of-range numeric `creation_tsz` through the unguarded `fromtimestamp`
(see the counterexample). -/
theorem parse_order_total_on_wellformed_payloads (now : PDatetime) (p : PyVal) :
    (etsyPayloadOk p = true → ∃ o, EtsyOrderImporter.parse_order now p = Except.ok o) ∧
    (shopifyPayloadOk p = true → ∃ o, ShopifyOrderImporter.parse_order now p = Except.ok o) := by
  constructor
  · intro h
    cases p
    case dict es =>
      rw [etsyPayloadOk, Bool.and_eq_true, Bool.and_eq_true, Bool.and_eq_true] at h
      obtain ⟨⟨⟨hb, htx⟩, hgt⟩, hdt⟩ := h
      obtain ⟨bs, hbs⟩ := isDictV_sound hb
      obtain ⟨ca, hca⟩ := etsyDateOk_sound now hdt
      obtain ⟨txs, htxs⟩ : ∃ txs,
          pyOr (dget es "transactions") (PyVal.list []) = PyVal.list txs := by
        revert htx
        cases pyOr (dget es "transactions") (PyVal.list []) <;> intro htx <;>
          first
            | exact ⟨_, rfl⟩
            | cases htx
      rw [htxs] at htx
      have hall : ∀ tx ∈ txs, ∃ it,
          EtsyOrderImporter.parse_transaction tx
            ((pyOr (dget es "currency_code") (PyVal.str "USD")).pyStr) = Except.ok it := by
        intro tx hmem
        exact etsyTxOk_sound _ (List.all_eq_true.mp htx tx hmem)
      obtain ⟨items, hitems⟩ := mapME_ok_of_all hall
      obtain ⟨tp, htp⟩ := numFieldOk_sound (sumSubtotals items) hgt
      unfold EtsyOrderImporter.parse_order
      simp only [get_dict, ok_bind]
      rw [hbs]
      simp only [get_dict, ok_bind]
      rw [hca, ok_bind, htxs, iter_list, ok_bind, hitems, ok_bind, htp, ok_bind]
      exact ⟨_, rfl⟩
    all_goals exact Bool.noConfusion h
  · intro h
    cases p
    case dict es =>
      rw [shopifyPayloadOk, Bool.and_eq_true, Bool.and_eq_true] at h
      obtain ⟨⟨hb, hli⟩, htp0⟩ := h
      obtain ⟨bs, hbs⟩ := isDictV_sound hb
      obtain ⟨lis, hlis⟩ : ∃ lis,
          pyOr (dget es "line_items") (PyVal.list []) = PyVal.list lis := by
        revert hli
        cases pyOr (dget es "line_items") (PyVal.list []) <;> intro hli <;>
          first
            | exact ⟨_, rfl⟩
            | cases hli
      rw [hlis] at hli
      have hall : ∀ li ∈ lis, ∃ it,
          ShopifyOrderImporter.parse_line_item li
            ((pyOr (dget es "currency") (PyVal.str "USD")).pyStr) = Except.ok it := by
        intro li hmem
        exact shopifyLiOk_sound _ (List.all_eq_true.mp hli li hmem)
      obtain ⟨items, hitems⟩ := mapME_ok_of_all hall
      obtain ⟨tp, htp⟩ := numFieldOk_sound (sumSubtotals items) htp0
      obtain ⟨cn, hcn⟩ := build_customer_name_dict_ok bs
      unfold ShopifyOrderImporter.parse_order
      simp only [get_dict, ok_bind]
      rw [hbs, hcn, ok_bind]
      simp only [get_dict, ok_bind]
      rw [hlis, iter_list, ok_bind, hitems, ok_bind, htp, ok_bind]
      exact ⟨_, rfl⟩
    all_goals exact Bool.noConfusion h

/-- The spec's Etsy scenario payload (section 8). -/
def w1etsy : PyVal :=
  PyVal.dict
    [("receipt_id", PyVal.str "1"),
     ("creation_tsz", PyVal.int 1700000000),
     ("buyer", PyVal.dict [("name", PyVal.str "Ada"), ("email", PyVal.str "ada@example.com")]),
     ("transactions", PyVal.list
       [PyVal.dict [("listing_id", PyVal.str "A"), ("quantity", PyVal.int 1),
                    ("price", PyVal.str "10.00")]])]

/-- A representative Shopify payload with string-encoded numerics. -/
def w1shop : PyVal :=
  PyVal.dict
    [("id", PyVal.int 2),
     ("created_at", PyVal.str "2024-05-10T14:30:00Z"),
     ("customer", PyVal.dict [("first_name", PyVal.str "Grace")]),
     ("line_items", PyVal.list
       [PyVal.dict [("sku", PyVal.str "B"), ("quantity", PyVal.int 2),
                    ("price", PyVal.str "5.00")]])]

/-- Witness for the amended C1: both well-formedness checkers hold on concrete
payloads with string-encoded numerics, and both parses succeed. -/
theorem parse_order_total_on_wellformed_payloads_witness :
    (etsyPayloadOk w1etsy = true ∧ shopifyPayloadOk w1shop = true) ∧
    (∃ o, EtsyOrderImporter.parse_order (w3clock 0) w1etsy = Except.ok o) ∧
    (∃ o, ShopifyOrderImporter.parse_order (w3clock 0) w1shop = Except.ok o) :=
  ⟨⟨rfl, rfl⟩,
   (parse_order_total_on_wellformed_payloads (w3clock 0) w1etsy).1 rfl,
   (parse_order_total_on_wellformed_payloads (w3clock 0) w1shop).2 rfl⟩

end Tectle
